import Mathlib

/-!
# HSAAPIInfoManager (CodeXL, GpuProfiling/Backend/HSAFdnTrace)

A shallow embedding of `HSAFdnAPIInfoManager.cpp`: the manager object is a
record of its members, every member function is a function on that record,
and a call that dereferences a null pointer has the result `none`.

Conventions
* handles and pointers (`hsa_queue_t*`, `hsa_agent_t`, code handles) are `Nat`;
* `std::set` is a `Finset`, `std::map` an association list in insertion order
  (the source never iterates `m_queueIndexMap`, it only uses `find`, `insert`
  and `size`);
* a `std::string` is a `String` of one-byte characters, an output stream is the
  `String` written so far, and an `ofstream` opened in append mode adds the
  text at the end of its file when the open succeeded and writes nothing when
  it failed (the source never tests the stream);
* `new(std::nothrow)` takes a flag saying whether the allocation succeeded.
-/

namespace CodeXL

/-! ## Types declared in headers that the source file includes -/

/-- Modelled from the spec: the enumeration of runtime entry points ("API
identifier") is declared in the generated header `HSATraceInterception.h`.
The four enumerators the source file names are kept; `other n` stands for every
remaining enumerator. -/
inductive HSA_API_Type where
  | HSA_API_Type_UNKNOWN
  | HSA_API_Type_hsa_queue_create
  | HSA_API_Type_hsa_executable_get_symbol
  | HSA_API_Type_hsa_executable_symbol_get_info
  | other (n : Nat)
  deriving DecidableEq, Repr

/-- Modelled from the spec: the timer kind ("delay" and "duration" timer) is
declared with `ProfilerTimer`; `other n` is any value that reaches the
`default:` label of the switches in the source. -/
inductive ProfilerTimerType where
  | PROFILEDELAYTIMER
  | PROFILEDURATIONTIMER
  | other (n : Nat)
  deriving DecidableEq, Repr

/-- A `TimerEndHandler` is a pointer to a function taking a timer kind. The only
such function defined in the source file is `HSATraceAgentTimerEndResponse`;
`other a` is any other function address. -/
inductive TimerEndHandler where
  | HSATraceAgentTimerEndResponse
  | other (addr : Nat)
  deriving DecidableEq, Repr

/-- Modelled from the spec: a `ProfilerTimer` instance ("each owning an interval,
an enabled flag, and an optional completion-handler reference"). The class is
not part of the source file; the record holds what the calls made on it by the
source file set: the constructor argument, `SetTimerType`,
`SetTimerFinishHandler` and `startTimer(true)`. -/
structure ProfilerTimer where
  m_interval : Nat
  m_timerType : Option ProfilerTimerType
  m_finishHandler : Option TimerEndHandler
  m_started : Bool
  deriving DecidableEq, Repr

/-- Modelled from the spec: `ProfilerTimer(interval)`, a timer that owns the
interval, has no kind and no handler yet and is not running. -/
def ProfilerTimer.new (timeIntervalInMilliseconds : Nat) : ProfilerTimer :=
  { m_interval := timeIntervalInMilliseconds, m_timerType := none,
    m_finishHandler := none, m_started := false }

/-- Modelled from the spec: `ProfilerTimer::SetTimerType`. -/
def ProfilerTimer.SetTimerType (t : ProfilerTimer) (timerType : ProfilerTimerType) :
    ProfilerTimer :=
  { t with m_timerType := some timerType }

/-- Modelled from the spec: `ProfilerTimer::SetTimerFinishHandler`, which stores the
completion-handler reference. -/
def ProfilerTimer.SetTimerFinishHandler (t : ProfilerTimer) (timerEndHandler : TimerEndHandler) :
    ProfilerTimer :=
  { t with m_finishHandler := some timerEndHandler }

/-- Modelled from the spec: `ProfilerTimer::startTimer(true)`, after which the timer
is running. -/
def ProfilerTimer.startTimer (t : ProfilerTimer) : ProfilerTimer :=
  { t with m_started := true }

/-- The concrete trace entry `HSAAPIBase`: the source reads its `m_type`; `m_id`
tells two entries of the same API apart. -/
structure HSAAPIBase where
  m_type : HSA_API_Type
  m_id : Nat
  deriving DecidableEq, Repr

/-- The polymorphic trace-entry base `APIBase`: an object is either an
`HSAAPIBase` or an entry of some other concrete class. -/
inductive APIBase where
  | hsa (e : HSAAPIBase)
  | foreign (id : Nat)
  deriving DecidableEq, Repr

/-- The cast `dynamic_cast<HSAAPIBase*>(api)` on a possibly null pointer. -/
def dynamic_cast_HSAAPIBase : Option APIBase → Option HSAAPIBase
  | some (APIBase.hsa e) => some e
  | _ => none

/-- The record `hsa_amd_profiling_async_copy_time_t` (two `uint64_t`). -/
structure hsa_amd_profiling_async_copy_time_t where
  start : Nat
  «end» : Nat
  deriving DecidableEq, Repr

/-- The record `hsa_profiler_kernel_time_t` as the source reads it:
`kernel`, `time.start`, `time.end`, `agent`, `queue`. -/
structure hsa_profiler_kernel_time_t where
  kernel : Nat
  time : hsa_amd_profiling_async_copy_time_t
  agent : Nat
  queue : Nat
  deriving DecidableEq, Repr

/-- The type `QueueIndexMap`, a `std::map` from queue pointer to index. -/
abbrev QueueIndexMap := List (Nat × Nat)

/-- The call `std::map::find`: the mapped value of the entry with this key. -/
def QueueIndexMap.find : QueueIndexMap → Nat → Option Nat
  | [], _ => none
  | (k, v) :: rest, pQueue => if k = pQueue then some v else QueueIndexMap.find rest pQueue

/-- The call `std::map::insert`: adds the pair unless the key is already present. -/
def QueueIndexMap.insert (m : QueueIndexMap) (p : Nat × Nat) : QueueIndexMap :=
  if (QueueIndexMap.find m p.1).isSome then m else m ++ [p]

/-- The number of values of `unsigned int`, the type of the configured maximum
`m_uiMaxNumOfAPICalls` and of the counter `m_tracedApiCount`. -/
abbrev UINT_RANGE : Nat := 4294967296

/-! ## The manager object -/

/-- The members of `HSAAPIInfoManager` that the source file reads or writes.
`m_bIsTracing` and `m_traceInfo` belong to the base class `APIInfoManagerBase`;
`m_deleted` records the entries released with `SAFE_DELETE`. -/
structure HSAAPIInfoManager where
  m_tracedApiCount : Nat
  m_mustInterceptAPIs : Finset HSA_API_Type
  m_filterAPIs : Finset HSA_API_Type
  m_queueIndexMap : QueueIndexMap
  m_asyncCopyTimestamps : List hsa_amd_profiling_async_copy_time_t
  m_delayTimer : Option ProfilerTimer
  m_durationTimer : Option ProfilerTimer
  m_bDelayStartEnabled : Bool
  m_delayInMilliseconds : Nat
  m_bProfilerDurationEnabled : Bool
  m_durationInMilliseconds : Nat
  m_bIsTracing : Bool
  m_traceInfo : List HSAAPIBase
  m_deleted : List HSAAPIBase
  deriving DecidableEq

namespace HSAAPIInfoManager

/-- The constructor. It sets the counter to 0, fills the must-intercept set and
nulls both timers; the containers start empty. The four delay and duration
members are not written by the constructor and the tracing flag belongs to the
base class, so their initial values are arguments. -/
def ctor (bDelayStartEnabled : Bool) (delayInMilliseconds : Nat)
    (bProfilerDurationEnabled : Bool) (durationInMilliseconds : Nat)
    (bIsTracing : Bool) : HSAAPIInfoManager :=
  { m_tracedApiCount := 0
    m_mustInterceptAPIs :=
      insert HSA_API_Type.HSA_API_Type_hsa_executable_symbol_get_info
        (insert HSA_API_Type.HSA_API_Type_hsa_executable_get_symbol
          (insert HSA_API_Type.HSA_API_Type_hsa_queue_create ∅))
    m_filterAPIs := ∅
    m_queueIndexMap := []
    m_asyncCopyTimestamps := []
    m_delayTimer := none
    m_durationTimer := none
    m_bDelayStartEnabled := bDelayStartEnabled
    m_delayInMilliseconds := delayInMilliseconds
    m_bProfilerDurationEnabled := bProfilerDurationEnabled
    m_durationInMilliseconds := durationInMilliseconds
    m_bIsTracing := bIsTracing
    m_traceInfo := []
    m_deleted := [] }

/-! ### Queue registry -/

/-- The member function `AddQueue`. -/
def AddQueue (s : HSAAPIInfoManager) (pQueue : Nat) : HSAAPIInfoManager :=
  if (s.m_queueIndexMap.find pQueue).isSome then
    s
  else
    { s with m_queueIndexMap := s.m_queueIndexMap.insert (pQueue, s.m_queueIndexMap.length) }

/-- The member function `GetQueueIndex`: the returned flag and the value of the
reference argument `queueIndex` after the call. -/
def GetQueueIndex (s : HSAAPIInfoManager) (pQueue : Nat) (queueIndex : Nat) : Bool × Nat :=
  match s.m_queueIndexMap.find pQueue with
  | some v => (true, v)
  | none => (false, queueIndex)

/-! ### Interception policy and cap -/

/-- The member function `AddAPIToFilter`. The name registry
`HSAFunctionDefsUtils::ToHSAAPIType` is an argument. -/
def AddAPIToFilter (ToHSAAPIType : String → HSA_API_Type) (s : HSAAPIInfoManager)
    (strAPIName : String) : HSAAPIInfoManager :=
  if ToHSAAPIType strAPIName ≠ HSA_API_Type.HSA_API_Type_UNKNOWN then
    { s with m_filterAPIs := insert (ToHSAAPIType strAPIName) s.m_filterAPIs }
  else
    s

/-- The member function `IsInFilterList`. -/
def IsInFilterList (s : HSAAPIInfoManager) (type : HSA_API_Type) : Bool :=
  decide (type ∈ s.m_filterAPIs)

/-- The member function `ShouldIntercept`. -/
def ShouldIntercept (s : HSAAPIInfoManager) (type : HSA_API_Type) : Bool :=
  !s.IsInFilterList type || decide (type ∈ s.m_mustInterceptAPIs)

/-- The member function `IsCapReached`; the argument is the configured
`GlobalSettings::m_params.m_uiMaxNumOfAPICalls`, an `unsigned int`. -/
def IsCapReached (s : HSAAPIInfoManager) (m_uiMaxNumOfAPICalls : Fin UINT_RANGE) : Bool :=
  decide (s.m_tracedApiCount ≥ m_uiMaxNumOfAPICalls.val)

/-- Modelled from the spec: `APIInfoManagerBase::IsTracing`, the "is tracing
active" flag of the base class. -/
def IsTracing (s : HSAAPIInfoManager) : Bool :=
  s.m_bIsTracing

/-- Modelled from the spec: `APIInfoManagerBase::ResumeTracing`, "tracing resumes
(transition to Tracing)". -/
def ResumeTracing (s : HSAAPIInfoManager) : HSAAPIInfoManager :=
  { s with m_bIsTracing := true }

/-- Modelled from the spec: `APIInfoManagerBase::StopTracing`, "stop tracing
(transition to Stopped)". -/
def StopTracing (s : HSAAPIInfoManager) : HSAAPIInfoManager :=
  { s with m_bIsTracing := false }

/-- Modelled from the spec: `APIInfoManagerBase::AddTraceInfoEntry`, the single
"store" operation of the trace storage collaborator; the entry is appended. -/
def AddTraceInfoEntry (s : HSAAPIInfoManager) (en : HSAAPIBase) : HSAAPIInfoManager :=
  { s with m_traceInfo := s.m_traceInfo ++ [en] }

/-- The statement `SAFE_DELETE(hsaAPI)`: releases the object when the pointer is
not null. -/
def SAFE_DELETE (s : HSAAPIInfoManager) : Option HSAAPIBase → HSAAPIInfoManager
  | some e => { s with m_deleted := s.m_deleted ++ [e] }
  | none => s

/-- The member function `AddAPIInfoEntry`. The result is `none` when the call
dereferences the null result of the cast. The operator `||` evaluates its
operands left to right and stops at the first true one. -/
def AddAPIInfoEntry (m_uiMaxNumOfAPICalls : Fin UINT_RANGE) (s : HSAAPIInfoManager)
    (api : Option APIBase) : Option HSAAPIInfoManager :=
  if s.IsCapReached m_uiMaxNumOfAPICalls then
    some (s.SAFE_DELETE (dynamic_cast_HSAAPIBase api))
  else
    match dynamic_cast_HSAAPIBase api with
    | none => none
    | some hsaAPI =>
      if s.IsInFilterList hsaAPI.m_type || !s.IsTracing then
        some (s.SAFE_DELETE (some hsaAPI))
      else
        some { s.AddTraceInfoEntry hsaAPI with
                 m_tracedApiCount := (s.m_tracedApiCount + 1) % UINT_RANGE }

/-! ### Timing window controller -/

/-- The member function `EnableProfileDelayStart`. -/
def EnableProfileDelayStart (s : HSAAPIInfoManager) (doEnable : Bool)
    (delayInMilliseconds : Nat) : HSAAPIInfoManager :=
  { s with m_bDelayStartEnabled := doEnable
           m_delayInMilliseconds := if doEnable then delayInMilliseconds else 0 }

/-- The member function `EnableProfileDuration`. -/
def EnableProfileDuration (s : HSAAPIInfoManager) (doEnable : Bool)
    (durationInMilliseconds : Nat) : HSAAPIInfoManager :=
  { s with m_bProfilerDurationEnabled := doEnable
           m_durationInMilliseconds := if doEnable then durationInMilliseconds else 0 }

/-- The member function `IsProfilerDelayEnabled`: the returned flag and the value
written to the reference argument. -/
def IsProfilerDelayEnabled (s : HSAAPIInfoManager) : Bool × Nat :=
  (s.m_bDelayStartEnabled, s.m_delayInMilliseconds)

/-- The member function `IsProfilerDurationEnabled`: the returned flag and the
value written to the reference argument. -/
def IsProfilerDurationEnabled (s : HSAAPIInfoManager) : Bool × Nat :=
  (s.m_bProfilerDurationEnabled, s.m_durationInMilliseconds)

/-- The member function `SetTimerFinishHandler`; `none` when the selected timer
pointer is null and is dereferenced. -/
def SetTimerFinishHandler (s : HSAAPIInfoManager) (timerType : ProfilerTimerType)
    (timerEndHandler : TimerEndHandler) : Option HSAAPIInfoManager :=
  if s.m_delayTimer.isSome || s.m_durationTimer.isSome then
    match timerType with
    | ProfilerTimerType.PROFILEDELAYTIMER =>
      match s.m_delayTimer with
      | some t => some { s with m_delayTimer := some (t.SetTimerFinishHandler timerEndHandler) }
      | none => none
    | ProfilerTimerType.PROFILEDURATIONTIMER =>
      match s.m_durationTimer with
      | some t => some { s with m_durationTimer := some (t.SetTimerFinishHandler timerEndHandler) }
      | none => none
    | ProfilerTimerType.other _ => some s
  else
    some s

/-- The member function `CreateTimer`; `allocOk` says whether `new(std::nothrow)`
returned an object. -/
def CreateTimer (allocOk : Bool) (s : HSAAPIInfoManager) (timerType : ProfilerTimerType)
    (timeIntervalInMilliseconds : Nat) : HSAAPIInfoManager :=
  match timerType with
  | ProfilerTimerType.PROFILEDELAYTIMER =>
    if s.m_delayTimer = none ∧ timeIntervalInMilliseconds > 0 then
      if allocOk then
        { s with
            m_delayTimer := some ((ProfilerTimer.new timeIntervalInMilliseconds).SetTimerType
              ProfilerTimerType.PROFILEDELAYTIMER)
            m_bDelayStartEnabled := true
            m_delayInMilliseconds := timeIntervalInMilliseconds }
      else
        { s with m_delayTimer := none }
    else
      s
  | ProfilerTimerType.PROFILEDURATIONTIMER =>
    if s.m_durationTimer = none ∧ timeIntervalInMilliseconds > 0 then
      if allocOk then
        { s with
            m_durationTimer := some ((ProfilerTimer.new timeIntervalInMilliseconds).SetTimerType
              ProfilerTimerType.PROFILEDURATIONTIMER)
            m_bProfilerDurationEnabled := true
            m_durationInMilliseconds := timeIntervalInMilliseconds }
      else
        { s with m_durationTimer := none }
    else
      s
  | ProfilerTimerType.other _ => s

/-- The member function `startTimer`; `none` when the selected timer pointer is
null and is dereferenced. -/
def startTimer (s : HSAAPIInfoManager) (timerType : ProfilerTimerType) :
    Option HSAAPIInfoManager :=
  if s.m_delayTimer.isSome || s.m_durationTimer.isSome then
    match timerType with
    | ProfilerTimerType.PROFILEDELAYTIMER =>
      match s.m_delayTimer with
      | some t => some { s with m_delayTimer := some t.startTimer }
      | none => none
    | ProfilerTimerType.PROFILEDURATIONTIMER =>
      match s.m_durationTimer with
      | some t => some { s with m_durationTimer := some t.startTimer }
      | none => none
    | ProfilerTimerType.other _ => some s
  else
    some s

/-! ### Async completion collector -/

/-- The member function `AddAsyncCopyTimestamp` (the scope lock is held for the
whole body). -/
def AddAsyncCopyTimestamp (s : HSAAPIInfoManager)
    (asyncCopyTime : hsa_amd_profiling_async_copy_time_t) : HSAAPIInfoManager :=
  { s with m_asyncCopyTimestamps := s.m_asyncCopyTimestamps ++ [asyncCopyTime] }

end HSAAPIInfoManager

/-- The free function `HSATraceAgentTimerEndResponse`, run on the singleton
manager; `none` when one of the calls it makes dereferences a null timer. -/
def HSATraceAgentTimerEndResponse (allocOk : Bool) (s : HSAAPIInfoManager)
    (timerType : ProfilerTimerType) : Option HSAAPIInfoManager :=
  match timerType with
  | ProfilerTimerType.PROFILEDELAYTIMER =>
    let s1 := s.ResumeTracing
    if s1.IsProfilerDurationEnabled.1 then
      let s2 := s1.CreateTimer allocOk ProfilerTimerType.PROFILEDURATIONTIMER
        s1.IsProfilerDurationEnabled.2
      (s2.SetTimerFinishHandler ProfilerTimerType.PROFILEDURATIONTIMER
        TimerEndHandler.HSATraceAgentTimerEndResponse).bind
        (fun s3 => s3.startTimer ProfilerTimerType.PROFILEDURATIONTIMER)
    else
      some s1
  | ProfilerTimerType.PROFILEDURATIONTIMER => some s.StopTracing
  | ProfilerTimerType.other _ => some s

/-- The free function `AsyncSignalHandler`: the returned flag and the manager
afterwards. `arg` is the handler context (its `m_signal`), `none` for a null
pointer; the runtime query `hsa_amd_profiling_get_async_copy_time_fn` gives
the record on `HSA_STATUS_SUCCESS` and `none` on any other status. -/
def AsyncSignalHandler
    (hsa_amd_profiling_get_async_copy_time_fn :
      Nat → Option hsa_amd_profiling_async_copy_time_t)
    (s : HSAAPIInfoManager) (arg : Option Nat) : Bool × HSAAPIInfoManager :=
  match arg with
  | none => (false, s)
  | some m_signal =>
    match hsa_amd_profiling_get_async_copy_time_fn m_signal with
    | none => (false, s)
    | some asyncCopyTime => (false, s.AddAsyncCopyTimestamp asyncCopyTime)

/-! ## Record writer and flush -/

/-- The stream insertion `sout << std::left << std::setw(w) << text` on a stream
with the default fill character: the text in full, then spaces up to `w`
characters. -/
def left_setw (w : Nat) (text : String) : String :=
  text ++ String.mk (List.replicate (w - text.length) ' ')

/-- The stream insertion of a `uint64_t`: its decimal digits. -/
def uint64_text (v : Nat) : String :=
  Nat.repr v

/-- The singleton `FinalizerInfoManager`: its two maps, read with `count` and
`operator[]` only. -/
structure FinalizerInfoManager where
  m_codeHandleToSymbolHandleMap : Nat → Option Nat
  m_symbolHandleToNameMap : Nat → Option String

/-- The collaborators `WriteKernelTimestampEntry` calls and that are not part of
the source file: the finalizer maps, the agent query for
`HSA_AMD_AGENT_INFO_CHIP_ID` (`none` unless the status is `HSA_STATUS_SUCCESS`),
the device catalog `GetDeviceInfo(deviceId, REVISION_ID_ANY, _)` (the
`m_szCALName` on success) and the three string helpers. -/
structure RecordWriterEnv where
  pFinalizerInfoMan : FinalizerInfoManager
  hsa_agent_get_info_fn : Nat → Option Nat
  GetDeviceInfo : Nat → Option String
  ToHexString : Nat → String
  Get_hsa_agent_t_String : Nat → String
  ToString : Nat → String

namespace HSAAPIInfoManager

/-- The symbol name `WriteKernelTimestampEntry` prints for a code handle. -/
def kernelSymName (env : RecordWriterEnv) (kernel : Nat) : String :=
  let symName : String :=
    match env.pFinalizerInfoMan.m_codeHandleToSymbolHandleMap kernel with
    | some symHandle =>
      match env.pFinalizerInfoMan.m_symbolHandleToNameMap symHandle with
      | some name => name
      | none => ""
    | none => ""
  if symName.isEmpty then "<UnknownKernelName>" else symName

/-- The device name `WriteKernelTimestampEntry` prints for an agent. -/
def kernelDeviceName (env : RecordWriterEnv) (agent : Nat) : String :=
  match env.hsa_agent_get_info_fn agent with
  | some deviceId =>
    match env.GetDeviceInfo deviceId with
    | some szCALName => szCALName
    | none => "<UnknownDeviceName>"
  | none => "<UnknownDeviceName>"

/-- The member function `WriteKernelTimestampEntry`: the returned flag and the
stream afterwards. -/
def WriteKernelTimestampEntry (env : RecordWriterEnv) (s : HSAAPIInfoManager) (sout : String)
    (record : hsa_profiler_kernel_time_t) : Bool × String :=
  let symName := kernelSymName env record.kernel
  let sout := sout ++ left_setw (max 50 (symName.length + 1)) symName
  let sout := sout ++ left_setw 21 (env.ToHexString record.kernel)
  let sout := sout ++ left_setw 21 (uint64_text record.time.start)
  let sout := sout ++ left_setw 21 (uint64_text record.time.«end»)
  let sout := sout ++ left_setw 64 (kernelDeviceName env record.agent)
  let sout := sout ++ left_setw 21 (env.Get_hsa_agent_t_String record.agent)
  let queueIndex := (s.GetQueueIndex record.queue 0).2
  let sout := sout ++ left_setw 6 (env.ToString queueIndex)
  let sout := sout ++ left_setw 21 (env.ToHexString record.queue)
  (true, sout)

/-- The member function `WriteAsyncCopyTimestamp`: the returned flag and the
stream afterwards. -/
def WriteAsyncCopyTimestamp (sout : String)
    (timestamp : hsa_amd_profiling_async_copy_time_t) : Bool × String :=
  let sout := sout ++ left_setw 21 (uint64_text timestamp.start)
  let sout := sout ++ left_setw 21 (uint64_text timestamp.«end»)
  (true, sout)

end HSAAPIInfoManager

/-- What one call of `FlushNonAPITimestampData` reads from outside the manager:
the loader flag `HSARTModuleLoader<HSAToolsRTModule>::Instance()->IsLoaded()`,
the module flag `IsModuleLoaded()`, the answer of the sizing call
`ext_tools_get_kernel_times(0, NULL)`, whether the record array was allocated,
the records the filling call stores for a given capacity (the loop reads at most
that many), the temporary file names, for each path whether an `ofstream`
constructed on it with `fstream::out | fstream::app` is open, and the
collaborators of the record writer. -/
structure FlushEnv where
  IsLoaded : Bool
  IsModuleLoaded : Bool
  kernelTimesCount : Nat
  allocOk : Bool
  ext_tools_get_kernel_times : Nat → List hsa_profiler_kernel_time_t
  GetTempFileName : Nat → Nat → String → String
  TMP_KERNEL_TIME_STAMP_EXT : String
  TMP_ASYNC_COPY_TIME_STAMP_EXT : String
  ofstreamOpens : String → Bool
  writer : RecordWriterEnv

/-- The files on disk: the content of each path. -/
abbrev FileSystem := String → String

/-- An `ofstream` constructed on `path` with `fstream::out | fstream::app`, written
and closed. When the open succeeded the text is added at the end of the file
of that name; when it failed the stream is in a failed state, every insertion
is ignored and no file changes. -/
def FileSystem.append (fs : FileSystem) (opened : Bool) (path text : String) : FileSystem :=
  fun p => if opened = true ∧ p = path then fs p ++ text else fs p

namespace HSAAPIInfoManager

/-- The loop over the kernel records in `FlushNonAPITimestampData`: each record is
written with `WriteKernelTimestampEntry`, then `std::endl`. -/
def writeKernelRecords (env : RecordWriterEnv) (s : HSAAPIInfoManager) (foutKTS : String)
    (records : List hsa_profiler_kernel_time_t) : String :=
  records.foldl (fun out r => (s.WriteKernelTimestampEntry env out r).2 ++ "\n") foutKTS

/-- The loop over `m_asyncCopyTimestamps` in `FlushNonAPITimestampData`: each
record is written with `WriteAsyncCopyTimestamp`, then `std::endl`. -/
def writeAsyncRecords (foutCopyTS : String)
    (timestamps : List hsa_amd_profiling_async_copy_time_t) : String :=
  timestamps.foldl (fun out t => (WriteAsyncCopyTimestamp out t).2 ++ "\n") foutCopyTS

/-- The kernel-timestamp half of `FlushNonAPITimestampData` (the part run when the
loader reports loaded): the files afterwards. -/
def flushKernelTimestamps (env : FlushEnv) (pid : Nat) (s : HSAAPIInfoManager)
    (fs : FileSystem) : FileSystem :=
  if env.IsModuleLoaded then
    if env.kernelTimesCount > 0 then
      if env.allocOk then
        let records := (env.ext_tools_get_kernel_times env.kernelTimesCount).take
          env.kernelTimesCount
        fs.append (env.ofstreamOpens (env.GetTempFileName pid 0 env.TMP_KERNEL_TIME_STAMP_EXT))
          (env.GetTempFileName pid 0 env.TMP_KERNEL_TIME_STAMP_EXT)
          (s.writeKernelRecords env.writer "" records)
      else
        fs
    else
      fs
  else
    fs

/-- The member function `FlushNonAPITimestampData`: the manager and the files
afterwards. The buffer is cleared whether or not the stream was open. -/
def FlushNonAPITimestampData (env : FlushEnv) (s : HSAAPIInfoManager) (fs : FileSystem)
    (pid : Nat) : HSAAPIInfoManager × FileSystem :=
  if env.IsLoaded then
    let fs1 := s.flushKernelTimestamps env pid fs
    let fs2 := fs1.append
      (env.ofstreamOpens (env.GetTempFileName pid 0 env.TMP_ASYNC_COPY_TIME_STAMP_EXT))
      (env.GetTempFileName pid 0 env.TMP_ASYNC_COPY_TIME_STAMP_EXT)
      (writeAsyncRecords "" s.m_asyncCopyTimestamps)
    ({ s with m_asyncCopyTimestamps := [] }, fs2)
  else
    (s, fs)

/-- The shape of the queue index map once the handles `seen` have been added:
the registered handles are those of `seen`, there are as many entries as
distinct handles, and the indices are the numbers below the size, each used by
one handle. -/
def QueueMapInv (m : QueueIndexMap) (seen : List Nat) : Prop :=
  (∀ k, (QueueIndexMap.find m k).isSome ↔ k ∈ seen) ∧
  m.length = seen.toFinset.card ∧
  (∀ k v, QueueIndexMap.find m k = some v → v < m.length) ∧
  (∀ k1 k2 v, QueueIndexMap.find m k1 = some v → QueueIndexMap.find m k2 = some v → k1 = k2) ∧
  (∀ i, i < m.length → ∃ k, QueueIndexMap.find m k = some i)

end HSAAPIInfoManager

/-! ## Operations as a transition system -/

/-- One call on the manager after construction, with what the call reads from
outside the manager. `AddAsyncCopyCompletionSignal` is not listed: it only
registers `AsyncSignalHandler` with the runtime and writes no member; the
later run of the handler is the operation `AsyncSignalHandler`. -/
inductive Op where
  | AddAPIToFilter (ToHSAAPIType : String → HSA_API_Type) (strAPIName : String)
  | AddQueue (pQueue : Nat)
  | AddAPIInfoEntry (m_uiMaxNumOfAPICalls : Fin UINT_RANGE) (api : Option APIBase)
  | EnableProfileDelayStart (doEnable : Bool) (delayInMilliseconds : Nat)
  | EnableProfileDuration (doEnable : Bool) (durationInMilliseconds : Nat)
  | SetTimerFinishHandler (timerType : ProfilerTimerType) (timerEndHandler : TimerEndHandler)
  | CreateTimer (allocOk : Bool) (timerType : ProfilerTimerType)
      (timeIntervalInMilliseconds : Nat)
  | startTimer (timerType : ProfilerTimerType)
  | AddAsyncCopyTimestamp (asyncCopyTime : hsa_amd_profiling_async_copy_time_t)
  | AsyncSignalHandler
      (hsa_amd_profiling_get_async_copy_time_fn :
        Nat → Option hsa_amd_profiling_async_copy_time_t)
      (arg : Option Nat)
  | FlushNonAPITimestampData (env : FlushEnv) (fs : FileSystem) (pid : Nat)
  | HSATraceAgentTimerEndResponse (allocOk : Bool) (timerType : ProfilerTimerType)
  | ResumeTracing
  | StopTracing

/-- The manager after one operation; `none` when the operation dereferences a
null pointer. -/
def Op.apply (s : HSAAPIInfoManager) : Op → Option HSAAPIInfoManager
  | Op.AddAPIToFilter f name => some (s.AddAPIToFilter f name)
  | Op.AddQueue q => some (s.AddQueue q)
  | Op.AddAPIInfoEntry cap api => s.AddAPIInfoEntry cap api
  | Op.EnableProfileDelayStart e d => some (s.EnableProfileDelayStart e d)
  | Op.EnableProfileDuration e d => some (s.EnableProfileDuration e d)
  | Op.SetTimerFinishHandler k h => s.SetTimerFinishHandler k h
  | Op.CreateTimer ok k t => some (s.CreateTimer ok k t)
  | Op.startTimer k => s.startTimer k
  | Op.AddAsyncCopyTimestamp t => some (s.AddAsyncCopyTimestamp t)
  | Op.AsyncSignalHandler q arg => some (CodeXL.AsyncSignalHandler q s arg).2
  | Op.FlushNonAPITimestampData env fs pid => some (s.FlushNonAPITimestampData env fs pid).1
  | Op.HSATraceAgentTimerEndResponse ok k => CodeXL.HSATraceAgentTimerEndResponse ok s k
  | Op.ResumeTracing => some s.ResumeTracing
  | Op.StopTracing => some s.StopTracing

/-- The manager after a sequence of operations, `none` as soon as one of them
faults. -/
def Op.run (s : HSAAPIInfoManager) : List Op → Option HSAAPIInfoManager
  | [] => some s
  | op :: rest => (op.apply s).bind (fun s1 => Op.run s1 rest)

/-! ## Handler runs and flushes as events -/

/-- One step that reads or writes `m_asyncCopyTimestamps`: a run of
`AsyncSignalHandler` on a callback thread, or a call of
`FlushNonAPITimestampData`. The handler touches the buffer only inside
`AddAsyncCopyTimestamp` and the flush only inside its locked block, both under
`AMDTScopeLock lock(m_asyncTimeStampsMtx)`, so an execution of several threads
is a sequence of these steps in the order in which the lock was taken. The
kernel-timestamp half of a flush runs before its locked block; it does not
read the buffer and writes the kernel-timestamp file only, so it is kept in
the step of its flush. -/
inductive AsyncEvent where
  | completion
      (hsa_amd_profiling_get_async_copy_time_fn :
        Nat → Option hsa_amd_profiling_async_copy_time_t)
      (arg : Option Nat)
  | flush (env : FlushEnv) (pid : Nat)

/-- The manager and the files after one event. -/
def AsyncEvent.step (w : HSAAPIInfoManager × FileSystem) :
    AsyncEvent → HSAAPIInfoManager × FileSystem
  | AsyncEvent.completion q arg => ((AsyncSignalHandler q w.1 arg).2, w.2)
  | AsyncEvent.flush env pid => w.1.FlushNonAPITimestampData env w.2 pid

/-- The manager and the files after a sequence of events. -/
def AsyncEvent.run (w : HSAAPIInfoManager × FileSystem) (events : List AsyncEvent) :
    HSAAPIInfoManager × FileSystem :=
  events.foldl AsyncEvent.step w

/-- The record of a successful completion: the handler ran with a context and the
runtime query answered `HSA_STATUS_SUCCESS`. -/
def AsyncEvent.record : AsyncEvent → Option hsa_amd_profiling_async_copy_time_t
  | AsyncEvent.completion q (some m_signal) => q m_signal
  | _ => none

namespace HSAAPIInfoManager

theorem find_append_of_some (m m2 : QueueIndexMap) (q v : Nat)
    (h : QueueIndexMap.find m q = some v) : QueueIndexMap.find (m ++ m2) q = some v := by
  induction m with
  | nil => simp [QueueIndexMap.find] at h
  | cons p rest ih =>
    obtain ⟨k, w⟩ := p
    by_cases hk : k = q
    · simp only [List.cons_append, QueueIndexMap.find, hk, if_true] at h ⊢
      exact h
    · simp only [List.cons_append, QueueIndexMap.find, hk, if_false] at h ⊢
      exact ih h

theorem find_append_of_none (m m2 : QueueIndexMap) (q : Nat)
    (h : QueueIndexMap.find m q = none) :
    QueueIndexMap.find (m ++ m2) q = QueueIndexMap.find m2 q := by
  induction m with
  | nil => rfl
  | cons p rest ih =>
    obtain ⟨k, w⟩ := p
    by_cases hk : k = q
    · simp [QueueIndexMap.find, hk] at h
    · simp only [List.cons_append, QueueIndexMap.find, hk, if_false] at h ⊢
      exact ih h

theorem AddQueue_of_some (s : HSAAPIInfoManager) (q v : Nat)
    (h : s.m_queueIndexMap.find q = some v) : s.AddQueue q = s := by
  simp [AddQueue, h]

theorem AddQueue_of_none (s : HSAAPIInfoManager) (q : Nat)
    (h : s.m_queueIndexMap.find q = none) :
    (s.AddQueue q).m_queueIndexMap = s.m_queueIndexMap ++ [(q, s.m_queueIndexMap.length)] := by
  simp [AddQueue, QueueIndexMap.insert, h]

theorem AddQueue_find_stable (s : HSAAPIInfoManager) (q k v : Nat)
    (h : s.m_queueIndexMap.find k = some v) : (s.AddQueue q).m_queueIndexMap.find k = some v := by
  cases hq : s.m_queueIndexMap.find q with
  | some w => rw [AddQueue_of_some s q w hq]; exact h
  | none => rw [AddQueue_of_none s q hq]; exact find_append_of_some _ _ _ _ h

theorem foldl_AddQueue_find_stable (xs : List Nat) (s : HSAAPIInfoManager) (k v : Nat)
    (h : s.m_queueIndexMap.find k = some v) :
    (xs.foldl AddQueue s).m_queueIndexMap.find k = some v := by
  induction xs generalizing s with
  | nil => exact h
  | cons x rest ih => exact ih (s.AddQueue x) (AddQueue_find_stable s x k v h)

theorem find_singleton (q v k : Nat) :
    QueueIndexMap.find [(q, v)] k = if q = k then some v else none := by
  simp [QueueIndexMap.find]

theorem find_snoc_fresh (m : QueueIndexMap) (q v k : Nat)
    (hq : QueueIndexMap.find m q = none) :
    QueueIndexMap.find (m ++ [(q, v)]) k =
      if k = q then some v else QueueIndexMap.find m k := by
  by_cases hk : k = q
  · subst hk
    rw [find_append_of_none m _ k hq, find_singleton]
    simp
  · cases hm : QueueIndexMap.find m k with
    | some w => rw [find_append_of_some m _ k w hm]; simp [hk]
    | none =>
      rw [find_append_of_none m _ k hm, find_singleton]
      have : ¬ q = k := fun e => hk e.symm
      simp [hk, this]

theorem AddQueue_inv (s : HSAAPIInfoManager) (seen : List Nat) (q : Nat)
    (h : QueueMapInv s.m_queueIndexMap seen) :
    QueueMapInv (s.AddQueue q).m_queueIndexMap (seen ++ [q]) := by
  obtain ⟨h1, h2, h3, h4, h5⟩ := h
  cases hq : s.m_queueIndexMap.find q with
  | some w =>
    rw [AddQueue_of_some s q w hq]
    have hmem : q ∈ seen := (h1 q).1 (by simp [hq])
    refine ⟨?_, ?_, h3, h4, h5⟩
    · intro k
      rw [h1 k]
      constructor
      · intro hk; exact List.mem_append_left _ hk
      · intro hk
        rcases List.mem_append.1 hk with hk | hk
        · exact hk
        · rw [List.mem_singleton.1 hk]; exact hmem
    · rw [h2]
      congr 1
      ext x
      simp only [List.mem_toFinset, List.mem_append, List.mem_singleton]
      constructor
      · intro hx; exact Or.inl hx
      · rintro (hx | hx)
        · exact hx
        · rw [hx]; exact hmem
  | none =>
    rw [AddQueue_of_none s q hq]
    have hnot : q ∉ seen := fun hm => by
      have := (h1 q).2 hm
      simp [hq] at this
    refine ⟨?_, ?_, ?_, ?_, ?_⟩
    · intro k
      rw [find_snoc_fresh _ _ _ _ hq]
      by_cases hk : k = q
      · simp [hk]
      · simp only [hk, if_false, List.mem_append, List.mem_singleton, or_false]
        exact h1 k
    · rw [List.length_append, List.length_singleton, h2, List.toFinset_append]
      have : [q].toFinset = {q} := by simp
      rw [this, Finset.union_comm, ← Finset.insert_eq,
        Finset.card_insert_of_not_mem (by simpa using hnot)]
    · intro k v hv
      rw [find_snoc_fresh _ _ _ _ hq] at hv
      rw [List.length_append, List.length_singleton]
      by_cases hk : k = q
      · simp only [hk, if_true, Option.some.injEq] at hv
        omega
      · simp only [hk, if_false] at hv
        have := h3 k v hv
        omega
    · intro k1 k2 v hv1 hv2
      rw [find_snoc_fresh _ _ _ _ hq] at hv1 hv2
      by_cases hk1 : k1 = q
      · by_cases hk2 : k2 = q
        · rw [hk1, hk2]
        · simp only [hk1, if_true, Option.some.injEq] at hv1
          simp only [hk2, if_false] at hv2
          have := h3 k2 v hv2
          omega
      · by_cases hk2 : k2 = q
        · simp only [hk2, if_true, Option.some.injEq] at hv2
          simp only [hk1, if_false] at hv1
          have := h3 k1 v hv1
          omega
        · simp only [hk1, if_false] at hv1
          simp only [hk2, if_false] at hv2
          exact h4 k1 k2 v hv1 hv2
    · intro i hi
      rw [List.length_append, List.length_singleton] at hi
      by_cases hil : i < s.m_queueIndexMap.length
      · obtain ⟨k, hk⟩ := h5 i hil
        exact ⟨k, find_append_of_some _ _ _ _ hk⟩
      · refine ⟨q, ?_⟩
        rw [find_snoc_fresh _ _ _ _ hq]
        have : i = s.m_queueIndexMap.length := by omega
        simp [this]

theorem foldl_AddQueue_inv (xs : List Nat) (s : HSAAPIInfoManager) (seen : List Nat)
    (h : QueueMapInv s.m_queueIndexMap seen) :
    QueueMapInv (xs.foldl AddQueue s).m_queueIndexMap (seen ++ xs) := by
  induction xs generalizing s seen with
  | nil => simpa using h
  | cons x rest ih =>
    have := ih (s.AddQueue x) (seen ++ [x]) (AddQueue_inv s seen x h)
    simpa using this

theorem QueueMapInv_nil : QueueMapInv [] [] := by
  refine ⟨?_, ?_, ?_, ?_, ?_⟩
  · intro k; simp [QueueIndexMap.find]
  · simp
  · intro k v hv; simp [QueueIndexMap.find] at hv
  · intro k1 k2 v hv; simp [QueueIndexMap.find] at hv
  · intro i hi; simp at hi

theorem GetQueueIndex_of_some (s : HSAAPIInfoManager) (q v i0 : Nat)
    (h : s.m_queueIndexMap.find q = some v) : s.GetQueueIndex q i0 = (true, v) := by
  simp [GetQueueIndex, h]

/-- C1: starting from an empty queue index map, after any sequence of AddQueue
calls GetQueueIndex finds every handle of the sequence, with the number of
distinct handles seen before its first appearance as index; two handles never
share an index, every number below the count of distinct handles is the index
of some handle, and AddQueue on a registered handle leaves the whole manager
unchanged. -/
theorem C1_queue_index_first_seen (s0 : HSAAPIInfoManager) (h0 : s0.m_queueIndexMap = [])
    (handles : List Nat) :
    (∀ pre h post i0, handles = pre ++ h :: post → h ∉ pre →
      (handles.foldl AddQueue s0).GetQueueIndex h i0 = (true, pre.toFinset.card)) ∧
    (∀ h1 h2 i1 i2, h1 ∈ handles → h2 ∈ handles →
      ((handles.foldl AddQueue s0).GetQueueIndex h1 i1).2 =
        ((handles.foldl AddQueue s0).GetQueueIndex h2 i2).2 → h1 = h2) ∧
    (∀ i, i < handles.toFinset.card →
      ∃ h ∈ handles, ∀ i0, (handles.foldl AddQueue s0).GetQueueIndex h i0 = (true, i)) ∧
    (∀ h ∈ handles, (handles.foldl AddQueue s0).AddQueue h = handles.foldl AddQueue s0) := by
  have hinv : QueueMapInv (handles.foldl AddQueue s0).m_queueIndexMap handles := by
    have := foldl_AddQueue_inv handles s0 [] (by rw [h0]; exact QueueMapInv_nil)
    simpa using this
  obtain ⟨i1, i2, _, i4, i5⟩ := hinv
  have hsome : ∀ h ∈ handles, ∃ v, (handles.foldl AddQueue s0).m_queueIndexMap.find h = some v := by
    intro h hh
    exact Option.isSome_iff_exists.1 ((i1 h).2 hh)
  refine ⟨?_, ?_, ?_, ?_⟩
  · intro pre h post i0 hsplit hfresh
    subst hsplit
    have hpre : QueueMapInv (pre.foldl AddQueue s0).m_queueIndexMap pre := by
      have := foldl_AddQueue_inv pre s0 [] (by rw [h0]; exact QueueMapInv_nil)
      simpa using this
    have hnone : (pre.foldl AddQueue s0).m_queueIndexMap.find h = none := by
      cases hf : (pre.foldl AddQueue s0).m_queueIndexMap.find h with
      | none => rfl
      | some v => exact absurd ((hpre.1 h).1 (by simp [hf])) hfresh
    have hstep : ((pre.foldl AddQueue s0).AddQueue h).m_queueIndexMap.find h =
        some pre.toFinset.card := by
      rw [AddQueue_of_none _ h hnone, find_snoc_fresh _ _ _ _ hnone, hpre.2.1]
      simp
    rw [List.foldl_append, List.foldl_cons]
    exact GetQueueIndex_of_some _ _ _ _ (foldl_AddQueue_find_stable post _ h _ hstep)
  · intro h1 h2 j1 j2 hm1 hm2 heq
    obtain ⟨v1, hv1⟩ := hsome h1 hm1
    obtain ⟨v2, hv2⟩ := hsome h2 hm2
    rw [GetQueueIndex_of_some _ _ _ _ hv1, GetQueueIndex_of_some _ _ _ _ hv2] at heq
    simp only at heq
    subst heq
    exact i4 h1 h2 v1 hv1 hv2
  · intro i hi
    rw [← i2] at hi
    obtain ⟨k, hk⟩ := i5 i hi
    exact ⟨k, (i1 k).1 (by simp [hk]), fun i0 => GetQueueIndex_of_some _ _ _ _ hk⟩
  · intro h hh
    obtain ⟨v, hv⟩ := hsome h hh
    exact AddQueue_of_some _ h v hv

/-- C1 at the handles 7, 3, 7, 9 added to a freshly constructed manager: the
handle 9 is found with index 2. -/
theorem C1_queue_index_first_seen_witness :
    (ctor false 0 false 0 true).m_queueIndexMap = [] ∧
    ([7, 3, 7, 9].foldl AddQueue (ctor false 0 false 0 true)).GetQueueIndex 9 0 = (true, 2) :=
  ⟨rfl, (C1_queue_index_first_seen (ctor false 0 false 0 true) rfl [7, 3, 7, 9]).1
    [7, 3, 7] 9 [] 0 rfl (by decide)⟩

end HSAAPIInfoManager

/-! ## Interception policy -/

namespace HSAAPIInfoManager

theorem SAFE_DELETE_mustIntercept (s : HSAAPIInfoManager) (p : Option HSAAPIBase) :
    (s.SAFE_DELETE p).m_mustInterceptAPIs = s.m_mustInterceptAPIs := by
  cases p <;> rfl

theorem AddAPIInfoEntry_mustIntercept (cap : Fin UINT_RANGE) (s s1 : HSAAPIInfoManager)
    (api : Option APIBase) (h : s.AddAPIInfoEntry cap api = some s1) :
    s1.m_mustInterceptAPIs = s.m_mustInterceptAPIs := by
  unfold AddAPIInfoEntry at h
  split at h
  · cases h; exact SAFE_DELETE_mustIntercept _ _
  · split at h
    · cases h
    · split at h
      · cases h; rfl
      · cases h; rfl

theorem SetTimerFinishHandler_mustIntercept (s s1 : HSAAPIInfoManager) (k : ProfilerTimerType)
    (hd : TimerEndHandler) (h : s.SetTimerFinishHandler k hd = some s1) :
    s1.m_mustInterceptAPIs = s.m_mustInterceptAPIs := by
  unfold SetTimerFinishHandler at h
  split at h
  · split at h
    · split at h
      · cases h; rfl
      · cases h
    · split at h
      · cases h; rfl
      · cases h
    · cases h; rfl
  · cases h; rfl

theorem startTimer_mustIntercept (s s1 : HSAAPIInfoManager) (k : ProfilerTimerType)
    (h : s.startTimer k = some s1) :
    s1.m_mustInterceptAPIs = s.m_mustInterceptAPIs := by
  unfold startTimer at h
  split at h
  · split at h
    · split at h
      · cases h; rfl
      · cases h
    · split at h
      · cases h; rfl
      · cases h
    · cases h; rfl
  · cases h; rfl

theorem CreateTimer_mustIntercept (ok : Bool) (s : HSAAPIInfoManager) (k : ProfilerTimerType)
    (t : Nat) : (s.CreateTimer ok k t).m_mustInterceptAPIs = s.m_mustInterceptAPIs := by
  unfold CreateTimer
  split
  · split
    · split <;> rfl
    · rfl
  · split
    · split <;> rfl
    · rfl
  · rfl

theorem AddAPIToFilter_mustIntercept (f : String → HSA_API_Type) (s : HSAAPIInfoManager)
    (name : String) : (s.AddAPIToFilter f name).m_mustInterceptAPIs = s.m_mustInterceptAPIs := by
  unfold AddAPIToFilter
  split <;> rfl

theorem AddQueue_mustIntercept (s : HSAAPIInfoManager) (q : Nat) :
    (s.AddQueue q).m_mustInterceptAPIs = s.m_mustInterceptAPIs := by
  unfold AddQueue
  split <;> rfl

theorem FlushNonAPITimestampData_mustIntercept (env : FlushEnv) (s : HSAAPIInfoManager)
    (fs : FileSystem) (pid : Nat) :
    (s.FlushNonAPITimestampData env fs pid).1.m_mustInterceptAPIs = s.m_mustInterceptAPIs := by
  unfold FlushNonAPITimestampData
  split <;> rfl

end HSAAPIInfoManager

theorem AsyncSignalHandler_mustIntercept
    (q : Nat → Option hsa_amd_profiling_async_copy_time_t) (s : HSAAPIInfoManager)
    (arg : Option Nat) :
    (AsyncSignalHandler q s arg).2.m_mustInterceptAPIs = s.m_mustInterceptAPIs := by
  unfold AsyncSignalHandler
  split
  · rfl
  · split <;> rfl

theorem HSATraceAgentTimerEndResponse_mustIntercept (ok : Bool) (s s1 : HSAAPIInfoManager)
    (k : ProfilerTimerType) (h : HSATraceAgentTimerEndResponse ok s k = some s1) :
    s1.m_mustInterceptAPIs = s.m_mustInterceptAPIs := by
  unfold HSATraceAgentTimerEndResponse at h
  split at h
  · simp only at h
    split at h
    · obtain ⟨s3, h3, h4⟩ := Option.bind_eq_some.1 h
      rw [HSAAPIInfoManager.startTimer_mustIntercept _ _ _ h4,
        HSAAPIInfoManager.SetTimerFinishHandler_mustIntercept _ _ _ _ h3,
        HSAAPIInfoManager.CreateTimer_mustIntercept]
      rfl
    · cases h; rfl
  · cases h; rfl
  · cases h; rfl

theorem Op.apply_mustIntercept (s s1 : HSAAPIInfoManager) (op : Op)
    (h : op.apply s = some s1) : s1.m_mustInterceptAPIs = s.m_mustInterceptAPIs := by
  cases op with
  | AddAPIToFilter f name =>
    cases h; exact HSAAPIInfoManager.AddAPIToFilter_mustIntercept _ _ _
  | AddQueue q => cases h; exact HSAAPIInfoManager.AddQueue_mustIntercept _ _
  | AddAPIInfoEntry cap api => exact HSAAPIInfoManager.AddAPIInfoEntry_mustIntercept _ _ _ _ h
  | EnableProfileDelayStart e d => cases h; rfl
  | EnableProfileDuration e d => cases h; rfl
  | SetTimerFinishHandler k hd =>
    exact HSAAPIInfoManager.SetTimerFinishHandler_mustIntercept _ _ _ _ h
  | CreateTimer ok k t => cases h; exact HSAAPIInfoManager.CreateTimer_mustIntercept _ _ _ _
  | startTimer k => exact HSAAPIInfoManager.startTimer_mustIntercept _ _ _ h
  | AddAsyncCopyTimestamp t => cases h; rfl
  | AsyncSignalHandler q arg => cases h; exact AsyncSignalHandler_mustIntercept _ _ _
  | FlushNonAPITimestampData env fs pid =>
    cases h; exact HSAAPIInfoManager.FlushNonAPITimestampData_mustIntercept _ _ _ _
  | HSATraceAgentTimerEndResponse ok k =>
    exact HSATraceAgentTimerEndResponse_mustIntercept _ _ _ _ h
  | ResumeTracing => cases h; rfl
  | StopTracing => cases h; rfl

theorem Op.run_mustIntercept (ops : List Op) (s s1 : HSAAPIInfoManager)
    (h : Op.run s ops = some s1) : s1.m_mustInterceptAPIs = s.m_mustInterceptAPIs := by
  induction ops generalizing s with
  | nil => simp only [Op.run, Option.some.injEq] at h; rw [h]
  | cons op rest ih =>
    simp only [Op.run] at h
    obtain ⟨s2, h2, h3⟩ := Option.bind_eq_some.1 h
    rw [ih s2 h3, Op.apply_mustIntercept s s2 op h2]

theorem foldl_AddAPIToFilter_mustIntercept (f : String → HSA_API_Type) (names : List String)
    (s : HSAAPIInfoManager) :
    (names.foldl (HSAAPIInfoManager.AddAPIToFilter f) s).m_mustInterceptAPIs =
      s.m_mustInterceptAPIs := by
  induction names generalizing s with
  | nil => rfl
  | cons n rest ih =>
    rw [List.foldl_cons, ih, HSAAPIInfoManager.AddAPIToFilter_mustIntercept]

theorem ShouldIntercept_iff (s : HSAAPIInfoManager) (id : HSA_API_Type) :
    s.ShouldIntercept id = true ↔ (id ∉ s.m_filterAPIs ∨ id ∈ s.m_mustInterceptAPIs) := by
  simp [HSAAPIInfoManager.ShouldIntercept, HSAAPIInfoManager.IsInFilterList]

/-- C2: in every state reached from the constructed manager by AddAPIToFilter
calls, ShouldIntercept(id) is true exactly when id is not filtered or id is in
the must-intercept set; it is true for hsa_queue_create,
hsa_executable_get_symbol and hsa_executable_symbol_get_info, also right
after one of them has been put in the filter; and no sequence of operations
that runs to completion changes the must-intercept set or makes
ShouldIntercept false for one of the three. -/
theorem C2_must_intercept_wins (ToHSAAPIType : String → HSA_API_Type)
    (a : Bool) (b : Nat) (c : Bool) (d : Nat) (e : Bool) (names : List String) :
    (∀ id,
      (names.foldl (HSAAPIInfoManager.AddAPIToFilter ToHSAAPIType)
        (HSAAPIInfoManager.ctor a b c d e)).ShouldIntercept id = true ↔
      (id ∉ (names.foldl (HSAAPIInfoManager.AddAPIToFilter ToHSAAPIType)
          (HSAAPIInfoManager.ctor a b c d e)).m_filterAPIs ∨
        id ∈ (names.foldl (HSAAPIInfoManager.AddAPIToFilter ToHSAAPIType)
          (HSAAPIInfoManager.ctor a b c d e)).m_mustInterceptAPIs)) ∧
    (∀ id, id ∈ (HSAAPIInfoManager.ctor a b c d e).m_mustInterceptAPIs ↔
      (id = HSA_API_Type.HSA_API_Type_hsa_queue_create ∨
        id = HSA_API_Type.HSA_API_Type_hsa_executable_get_symbol ∨
        id = HSA_API_Type.HSA_API_Type_hsa_executable_symbol_get_info)) ∧
    (∀ name, ToHSAAPIType name ∈ (HSAAPIInfoManager.ctor a b c d e).m_mustInterceptAPIs →
      ((names.foldl (HSAAPIInfoManager.AddAPIToFilter ToHSAAPIType)
        (HSAAPIInfoManager.ctor a b c d e)).AddAPIToFilter ToHSAAPIType name).IsInFilterList
          (ToHSAAPIType name) = true ∧
      ((names.foldl (HSAAPIInfoManager.AddAPIToFilter ToHSAAPIType)
        (HSAAPIInfoManager.ctor a b c d e)).AddAPIToFilter ToHSAAPIType name).ShouldIntercept
          (ToHSAAPIType name) = true) ∧
    (∀ ops s1,
      Op.run (names.foldl (HSAAPIInfoManager.AddAPIToFilter ToHSAAPIType)
        (HSAAPIInfoManager.ctor a b c d e)) ops = some s1 →
      s1.m_mustInterceptAPIs = (HSAAPIInfoManager.ctor a b c d e).m_mustInterceptAPIs ∧
      s1.ShouldIntercept HSA_API_Type.HSA_API_Type_hsa_queue_create = true ∧
      s1.ShouldIntercept HSA_API_Type.HSA_API_Type_hsa_executable_get_symbol = true ∧
      s1.ShouldIntercept HSA_API_Type.HSA_API_Type_hsa_executable_symbol_get_info = true) := by
  have hmust : ∀ id, id ∈ (HSAAPIInfoManager.ctor a b c d e).m_mustInterceptAPIs ↔
      (id = HSA_API_Type.HSA_API_Type_hsa_queue_create ∨
        id = HSA_API_Type.HSA_API_Type_hsa_executable_get_symbol ∨
        id = HSA_API_Type.HSA_API_Type_hsa_executable_symbol_get_info) := by
    intro id
    simp only [HSAAPIInfoManager.ctor, Finset.mem_insert, Finset.not_mem_empty, or_false]
    tauto
  refine ⟨fun id => ShouldIntercept_iff _ id, hmust, ?_, ?_⟩
  · intro name hname
    have hne : ToHSAAPIType name ≠ HSA_API_Type.HSA_API_Type_UNKNOWN := by
      intro h
      rw [h, hmust] at hname
      simp at hname
    have hin : ((names.foldl (HSAAPIInfoManager.AddAPIToFilter ToHSAAPIType)
        (HSAAPIInfoManager.ctor a b c d e)).AddAPIToFilter ToHSAAPIType name).IsInFilterList
          (ToHSAAPIType name) = true := by
      simp [HSAAPIInfoManager.IsInFilterList, HSAAPIInfoManager.AddAPIToFilter, hne]
    refine ⟨hin, ?_⟩
    rw [ShouldIntercept_iff]
    right
    rw [HSAAPIInfoManager.AddAPIToFilter_mustIntercept, foldl_AddAPIToFilter_mustIntercept]
    exact hname
  · intro ops s1 hrun
    have hm : s1.m_mustInterceptAPIs =
        (HSAAPIInfoManager.ctor a b c d e).m_mustInterceptAPIs := by
      rw [Op.run_mustIntercept ops _ s1 hrun, foldl_AddAPIToFilter_mustIntercept]
    refine ⟨hm, ?_, ?_, ?_⟩
    · rw [ShouldIntercept_iff, hm, hmust]; right; simp
    · rw [ShouldIntercept_iff, hm, hmust]; right; simp
    · rw [ShouldIntercept_iff, hm, hmust]; right; simp

/-- C2 at a manager whose filter holds hsa_queue_create: the entry point is in the
filter list and is still intercepted. -/
theorem C2_must_intercept_wins_witness :
    ((HSAAPIInfoManager.ctor false 0 false 0 true).AddAPIToFilter
      (fun _ => HSA_API_Type.HSA_API_Type_hsa_queue_create) "hsa_queue_create").IsInFilterList
        HSA_API_Type.HSA_API_Type_hsa_queue_create = true ∧
    ((HSAAPIInfoManager.ctor false 0 false 0 true).AddAPIToFilter
      (fun _ => HSA_API_Type.HSA_API_Type_hsa_queue_create) "hsa_queue_create").ShouldIntercept
        HSA_API_Type.HSA_API_Type_hsa_queue_create = true :=
  (C2_must_intercept_wins (fun _ => HSA_API_Type.HSA_API_Type_hsa_queue_create)
    false 0 false 0 true []).2.2.1 "hsa_queue_create" (by decide)

/-! ## Admission of trace entries -/

namespace HSAAPIInfoManager

/-- The admission step on an `HSAAPIBase` entry never faults: the entry is either
released or stored, and the counter does not wrap. -/
theorem AddAPIInfoEntry_hsa (cap : Fin UINT_RANGE) (s : HSAAPIInfoManager) (e : HSAAPIBase) :
    s.AddAPIInfoEntry cap (some (APIBase.hsa e)) =
      some (if s.IsCapReached cap || s.IsInFilterList e.m_type || !s.IsTracing then
        { s with m_deleted := s.m_deleted ++ [e] }
      else
        { s with m_traceInfo := s.m_traceInfo ++ [e]
                 m_tracedApiCount := s.m_tracedApiCount + 1 }) := by
  unfold AddAPIInfoEntry
  by_cases hcap : s.IsCapReached cap = true
  · simp [hcap, dynamic_cast_HSAAPIBase, SAFE_DELETE]
  · have hlt : s.m_tracedApiCount < cap.val := by
      simpa [IsCapReached] using hcap
    have hmod : (s.m_tracedApiCount + 1) % UINT_RANGE = s.m_tracedApiCount + 1 :=
      Nat.mod_eq_of_lt (by have := cap.isLt; omega)
    simp only [hcap, dynamic_cast_HSAAPIBase, Bool.false_or, if_false]
    by_cases hg : (s.IsInFilterList e.m_type || !s.IsTracing) = true
    · simp [hg, SAFE_DELETE]
    · simp only [hg, if_false, hmod, AddTraceInfoEntry]
      simp

/-- C3: for every manager state and every HSA trace entry AddAPIInfoEntry
completes and does exactly one of two things. If the cap is reached, or the
entry's API is filtered, or tracing is not active, the entry is released and
the counter and the trace storage are unchanged; otherwise the entry is
appended to the trace storage, nothing is released and the counter grows by
exactly one. -/
theorem C3_admit_or_discard (cap : Fin UINT_RANGE) (s : HSAAPIInfoManager) (e : HSAAPIBase) :
    ∃ s1, s.AddAPIInfoEntry cap (some (APIBase.hsa e)) = some s1 ∧
      ((s.IsCapReached cap = true ∨ s.IsInFilterList e.m_type = true ∨ s.IsTracing = false) →
        s1.m_deleted = s.m_deleted ++ [e] ∧ s1.m_tracedApiCount = s.m_tracedApiCount ∧
        s1.m_traceInfo = s.m_traceInfo) ∧
      (¬ (s.IsCapReached cap = true ∨ s.IsInFilterList e.m_type = true ∨
          s.IsTracing = false) →
        s1.m_traceInfo = s.m_traceInfo ++ [e] ∧
        s1.m_tracedApiCount = s.m_tracedApiCount + 1 ∧ s1.m_deleted = s.m_deleted) ∧
      s1.m_traceInfo.length + s1.m_deleted.length =
        s.m_traceInfo.length + s.m_deleted.length + 1 := by
  refine ⟨_, AddAPIInfoEntry_hsa cap s e, ?_, ?_, ?_⟩
  · intro h
    have hg : (s.IsCapReached cap || s.IsInFilterList e.m_type || !s.IsTracing) = true := by
      rcases h with h | h | h <;> simp [h]
    simp [hg]
  · intro h
    have hg : ¬ (s.IsCapReached cap || s.IsInFilterList e.m_type || !s.IsTracing) = true := by
      intro hc
      apply h
      simp only [Bool.or_eq_true, Bool.not_eq_true'] at hc
      tauto
    simp [hg]
  · by_cases hg : (s.IsCapReached cap || s.IsInFilterList e.m_type || !s.IsTracing) = true
    · rw [if_pos hg]
      simp only [List.length_append, List.length_singleton]
      omega
    · rw [if_neg hg]
      simp only [List.length_append, List.length_singleton]
      omega

/-- C3 at a freshly constructed, tracing manager with cap 2 and an unfiltered
entry: the entry is stored and the counter becomes 1. -/
theorem C3_admit_or_discard_witness :
    ∃ s1, (ctor false 0 false 0 true).AddAPIInfoEntry ⟨2, by decide⟩
        (some (APIBase.hsa ⟨HSA_API_Type.other 7, 1⟩)) = some s1 ∧
      s1.m_traceInfo = [⟨HSA_API_Type.other 7, 1⟩] ∧ s1.m_tracedApiCount = 1 := by
  obtain ⟨s1, h1, _, h3, _⟩ :=
    C3_admit_or_discard ⟨2, by decide⟩ (ctor false 0 false 0 true) ⟨HSA_API_Type.other 7, 1⟩
  exact ⟨s1, h1, (h3 (by decide)).1, (h3 (by decide)).2.1⟩

end HSAAPIInfoManager

theorem Op.run_append (xs ys : List Op) (s : HSAAPIInfoManager) :
    Op.run s (xs ++ ys) = (Op.run s xs).bind (fun s1 => Op.run s1 ys) := by
  induction xs generalizing s with
  | nil => simp [Op.run]
  | cons x rest ih =>
    simp only [List.cons_append, Op.run]
    cases hx : x.apply s with
    | none => simp
    | some s2 => simp [ih]

/-- A run of admissions on HSA entries completes; the counter does not decrease,
stays equal to the storage size and below the cap when it was so before; and
from a state at or above the cap every entry is released. -/
theorem run_entries (cap : Fin UINT_RANGE) (entries : List HSAAPIBase)
    (s : HSAAPIInfoManager) :
    ∃ s1, Op.run s (entries.map (fun x => Op.AddAPIInfoEntry cap (some (APIBase.hsa x)))) =
        some s1 ∧
      s.m_tracedApiCount ≤ s1.m_tracedApiCount ∧
      (s.m_tracedApiCount = s.m_traceInfo.length →
        s1.m_tracedApiCount = s1.m_traceInfo.length) ∧
      (s.m_tracedApiCount ≤ cap.val → s1.m_tracedApiCount ≤ cap.val) ∧
      (cap.val ≤ s.m_tracedApiCount →
        s1.m_tracedApiCount = s.m_tracedApiCount ∧ s1.m_traceInfo = s.m_traceInfo ∧
        s1.m_deleted = s.m_deleted ++ entries) := by
  induction entries generalizing s with
  | nil => exact ⟨s, rfl, le_refl _, fun h => h, fun h => h, fun _ => ⟨rfl, rfl, by simp⟩⟩
  | cons e rest ih =>
    simp only [List.map_cons, Op.run, Op.apply, HSAAPIInfoManager.AddAPIInfoEntry_hsa,
      Option.some_bind]
    by_cases hg : (s.IsCapReached cap || s.IsInFilterList e.m_type || !s.IsTracing) = true
    · simp only [hg, if_true]
      obtain ⟨s1, h1, h2, h3, h4, h5⟩ := ih { s with m_deleted := s.m_deleted ++ [e] }
      refine ⟨s1, h1, h2, h3, h4, ?_⟩
      intro hc
      obtain ⟨h6, h7, h8⟩ := h5 hc
      exact ⟨h6, h7, by rw [h8]; simp⟩
    · simp only [hg, if_false]
      have hlt : s.m_tracedApiCount < cap.val := by
        simp only [Bool.or_eq_true, not_or, HSAAPIInfoManager.IsCapReached,
          decide_eq_true_eq] at hg
        omega
      obtain ⟨s1, h1, h2, h3, h4, _⟩ := ih { s with
        m_traceInfo := s.m_traceInfo ++ [e], m_tracedApiCount := s.m_tracedApiCount + 1 }
      refine ⟨s1, h1, ?_, ?_, ?_, ?_⟩
      · simp only at h2; omega
      · intro h
        apply h3
        simp [h]
      · intro _
        apply h4
        simp only
        omega
      · intro hc
        omega

theorem take_eq_take_append (entries : List HSAAPIBase) (m k : Nat) (h : m ≤ k) :
    entries.take k = entries.take m ++ (entries.take k).drop m := by
  conv_lhs => rw [← List.take_append_drop m (entries.take k)]
  rw [List.take_take, min_eq_left h]

/-- C4: for every cap and every sequence of AddAPIInfoEntry calls on a freshly
constructed manager, after each prefix of the sequence the counter equals the
number of stored entries and is at most the cap, it is at least the counter
after any shorter prefix, and once it equals the cap every later entry is
released while the counter and the storage stay as they are. -/
theorem C4_counter_capped (cap : Fin UINT_RANGE) (a : Bool) (b : Nat) (c : Bool) (d : Nat)
    (e : Bool) (entries : List HSAAPIBase) (n : Nat) :
    ∃ sn,
      Op.run (HSAAPIInfoManager.ctor a b c d e)
        ((entries.take n).map (fun x => Op.AddAPIInfoEntry cap (some (APIBase.hsa x)))) =
          some sn ∧
      sn.m_tracedApiCount = sn.m_traceInfo.length ∧
      sn.m_tracedApiCount ≤ cap.val ∧
      (∀ m, m ≤ n → ∃ sm,
        Op.run (HSAAPIInfoManager.ctor a b c d e)
          ((entries.take m).map (fun x => Op.AddAPIInfoEntry cap (some (APIBase.hsa x)))) =
            some sm ∧
        sm.m_tracedApiCount ≤ sn.m_tracedApiCount) ∧
      (sn.m_tracedApiCount = cap.val → ∀ k, n ≤ k → ∃ sk,
        Op.run (HSAAPIInfoManager.ctor a b c d e)
          ((entries.take k).map (fun x => Op.AddAPIInfoEntry cap (some (APIBase.hsa x)))) =
            some sk ∧
        sk.m_tracedApiCount = sn.m_tracedApiCount ∧ sk.m_traceInfo = sn.m_traceInfo ∧
        sk.m_deleted = sn.m_deleted ++ (entries.take k).drop n) := by
  obtain ⟨sn, hn, _, hn3, hn4, _⟩ :=
    run_entries cap (entries.take n) (HSAAPIInfoManager.ctor a b c d e)
  refine ⟨sn, hn, hn3 rfl, hn4 (Nat.zero_le _), ?_, ?_⟩
  · intro m hm
    obtain ⟨sm, hm1, _, _, _, _⟩ :=
      run_entries cap (entries.take m) (HSAAPIInfoManager.ctor a b c d e)
    obtain ⟨sx, hx1, hx2, _, _, _⟩ := run_entries cap ((entries.take n).drop m) sm
    refine ⟨sm, hm1, ?_⟩
    have hsplit := hn
    rw [take_eq_take_append entries m n hm, List.map_append, Op.run_append, hm1,
      Option.some_bind, hx1] at hsplit
    cases hsplit
    exact hx2
  · intro hcap k hk
    obtain ⟨sx, hx1, _, _, _, hx5⟩ := run_entries cap ((entries.take k).drop n) sn
    refine ⟨sx, ?_, hx5 (le_of_eq hcap.symm)⟩
    rw [take_eq_take_append entries n k hk, List.map_append, Op.run_append, hn,
      Option.some_bind, hx1]

/-- C4 at cap 2 and three unfiltered entries on a tracing manager: the counter
after one entry is at most the counter after two, which is the cap, and the
third entry changes neither the counter nor the storage. -/
theorem C4_counter_capped_witness :
    ∃ s2 s1 s3,
      Op.run (HSAAPIInfoManager.ctor false 0 false 0 true)
        (([⟨HSA_API_Type.other 7, 1⟩, ⟨HSA_API_Type.other 8, 2⟩,
            ⟨HSA_API_Type.other 7, 3⟩].take 2).map
          (fun x => Op.AddAPIInfoEntry ⟨2, by decide⟩ (some (APIBase.hsa x)))) = some s2 ∧
      Op.run (HSAAPIInfoManager.ctor false 0 false 0 true)
        (([⟨HSA_API_Type.other 7, 1⟩, ⟨HSA_API_Type.other 8, 2⟩,
            ⟨HSA_API_Type.other 7, 3⟩].take 1).map
          (fun x => Op.AddAPIInfoEntry ⟨2, by decide⟩ (some (APIBase.hsa x)))) = some s1 ∧
      Op.run (HSAAPIInfoManager.ctor false 0 false 0 true)
        (([⟨HSA_API_Type.other 7, 1⟩, ⟨HSA_API_Type.other 8, 2⟩,
            ⟨HSA_API_Type.other 7, 3⟩].take 3).map
          (fun x => Op.AddAPIInfoEntry ⟨2, by decide⟩ (some (APIBase.hsa x)))) = some s3 ∧
      s1.m_tracedApiCount ≤ s2.m_tracedApiCount ∧ s2.m_tracedApiCount = 2 ∧
      s3.m_tracedApiCount = s2.m_tracedApiCount ∧ s3.m_traceInfo = s2.m_traceInfo := by
  obtain ⟨s2, h1, _, _, h4, h5⟩ := C4_counter_capped ⟨2, by decide⟩ false 0 false 0 true
    [⟨HSA_API_Type.other 7, 1⟩, ⟨HSA_API_Type.other 8, 2⟩, ⟨HSA_API_Type.other 7, 3⟩] 2
  have hc : s2.m_tracedApiCount = 2 := by
    have h : (Op.run (HSAAPIInfoManager.ctor false 0 false 0 true)
        (([⟨HSA_API_Type.other 7, 1⟩, ⟨HSA_API_Type.other 8, 2⟩,
            ⟨HSA_API_Type.other 7, 3⟩].take 2).map
          (fun x => Op.AddAPIInfoEntry ⟨2, by decide⟩ (some (APIBase.hsa x))))).map
        (fun s => s.m_tracedApiCount) = some 2 := by decide
    rw [h1] at h
    exact Option.some.inj h
  obtain ⟨s1, h6, h7⟩ := h4 1 (by decide)
  obtain ⟨s3, h8, h9, h10, _⟩ := h5 hc 3 (by decide)
  exact ⟨s2, s1, s3, h1, h6, h8, h7, hc, h9, h10⟩

/-! ## Cap -/

/-- C5, as stated, fails: with a configured maximum of 0 IsCapReached returns true
(not false) on a freshly constructed manager, whose counter is 0. -/
theorem C5_max_zero_counterexample :
    (HSAAPIInfoManager.ctor false 0 false 0 true).IsCapReached ⟨0, by decide⟩ = true := by
  decide

/-- C5, amended: IsCapReached returns true exactly when the traced-call counter is
greater than or equal to the configured maximum; for a configured maximum of 0
it returns true for every counter value. -/
theorem C5_cap_reached_iff (s : HSAAPIInfoManager) (m_uiMaxNumOfAPICalls : Fin UINT_RANGE) :
    (s.IsCapReached m_uiMaxNumOfAPICalls = true ↔
      s.m_tracedApiCount ≥ m_uiMaxNumOfAPICalls.val) ∧
    s.IsCapReached ⟨0, by decide⟩ = true := by
  simp [HSAAPIInfoManager.IsCapReached]

/-! ## Timers -/

/-- C6 at its failing input: the manager holds a duration timer and no delay timer,
and startTimer(PROFILEDELAYTIMER) passes the guard and dereferences the null
delay timer. -/
theorem C6_startTimer_null_delay_timer :
    ((HSAAPIInfoManager.ctor false 0 false 0 true).CreateTimer true
      ProfilerTimerType.PROFILEDURATIONTIMER 200).startTimer
        ProfilerTimerType.PROFILEDELAYTIMER = none := by
  decide

/-- C7: CreateTimer changes a timer only if that timer is the named one, is absent
and the interval is positive, and the timer then carries that interval; with
the named timer present or the interval 0 the call returns the state as it
was; the other timer is never touched; and with a successful allocation the
absent named timer is constructed. -/
theorem C7_create_timer_frame (allocOk : Bool) (s : HSAAPIInfoManager)
    (timerType : ProfilerTimerType) (t : Nat) :
    ((s.CreateTimer allocOk timerType t).m_delayTimer ≠ s.m_delayTimer →
      timerType = ProfilerTimerType.PROFILEDELAYTIMER ∧ s.m_delayTimer = none ∧ 0 < t ∧
      (s.CreateTimer allocOk timerType t).m_delayTimer =
        some { m_interval := t, m_timerType := some ProfilerTimerType.PROFILEDELAYTIMER,
               m_finishHandler := none, m_started := false }) ∧
    ((s.CreateTimer allocOk timerType t).m_durationTimer ≠ s.m_durationTimer →
      timerType = ProfilerTimerType.PROFILEDURATIONTIMER ∧ s.m_durationTimer = none ∧ 0 < t ∧
      (s.CreateTimer allocOk timerType t).m_durationTimer =
        some { m_interval := t, m_timerType := some ProfilerTimerType.PROFILEDURATIONTIMER,
               m_finishHandler := none, m_started := false }) ∧
    (timerType = ProfilerTimerType.PROFILEDELAYTIMER → (s.m_delayTimer ≠ none ∨ t = 0) →
      s.CreateTimer allocOk timerType t = s) ∧
    (timerType = ProfilerTimerType.PROFILEDURATIONTIMER → (s.m_durationTimer ≠ none ∨ t = 0) →
      s.CreateTimer allocOk timerType t = s) ∧
    (timerType ≠ ProfilerTimerType.PROFILEDELAYTIMER →
      (s.CreateTimer allocOk timerType t).m_delayTimer = s.m_delayTimer) ∧
    (timerType ≠ ProfilerTimerType.PROFILEDURATIONTIMER →
      (s.CreateTimer allocOk timerType t).m_durationTimer = s.m_durationTimer) ∧
    (timerType = ProfilerTimerType.PROFILEDELAYTIMER → s.m_delayTimer = none → 0 < t →
      allocOk = true →
      (s.CreateTimer allocOk timerType t).m_delayTimer =
        some { m_interval := t, m_timerType := some ProfilerTimerType.PROFILEDELAYTIMER,
               m_finishHandler := none, m_started := false }) ∧
    (timerType = ProfilerTimerType.PROFILEDURATIONTIMER → s.m_durationTimer = none → 0 < t →
      allocOk = true →
      (s.CreateTimer allocOk timerType t).m_durationTimer =
        some { m_interval := t, m_timerType := some ProfilerTimerType.PROFILEDURATIONTIMER,
               m_finishHandler := none, m_started := false }) := by
  cases timerType with
  | PROFILEDELAYTIMER =>
    by_cases hc : s.m_delayTimer = none ∧ t > 0
    · cases allocOk <;>
        simp [HSAAPIInfoManager.CreateTimer, hc, hc.1, hc.2, ProfilerTimer.new,
          ProfilerTimer.SetTimerType, Nat.pos_iff_ne_zero.1 hc.2]
    · simp only [HSAAPIInfoManager.CreateTimer, hc, if_false]
      simp only [not_and, not_lt, Nat.le_zero, gt_iff_lt] at hc
      refine ⟨by simp, by simp, by simp, by simp, by simp, by simp, ?_, by simp⟩
      intro _ h1 h2 _
      have := hc h1
      omega
  | PROFILEDURATIONTIMER =>
    by_cases hc : s.m_durationTimer = none ∧ t > 0
    · cases allocOk <;>
        simp [HSAAPIInfoManager.CreateTimer, hc, hc.1, hc.2, ProfilerTimer.new,
          ProfilerTimer.SetTimerType, Nat.pos_iff_ne_zero.1 hc.2]
    · simp only [HSAAPIInfoManager.CreateTimer, hc, if_false]
      simp only [not_and, not_lt, Nat.le_zero, gt_iff_lt] at hc
      refine ⟨by simp, by simp, by simp, by simp, by simp, by simp, by simp, ?_⟩
      intro _ h1 h2 _
      have := hc h1
      omega
  | other n => simp [HSAAPIInfoManager.CreateTimer]

/-- C7 at a freshly constructed manager: CreateTimer(PROFILEDURATIONTIMER, 200)
constructs the duration timer with interval 200, and a second
CreateTimer(PROFILEDURATIONTIMER, 300) changes nothing. -/
theorem C7_create_timer_frame_witness :
    ((HSAAPIInfoManager.ctor false 0 false 0 true).CreateTimer true
      ProfilerTimerType.PROFILEDURATIONTIMER 200).m_durationTimer =
        some { m_interval := 200, m_timerType := some ProfilerTimerType.PROFILEDURATIONTIMER,
               m_finishHandler := none, m_started := false } ∧
    ((HSAAPIInfoManager.ctor false 0 false 0 true).CreateTimer true
      ProfilerTimerType.PROFILEDURATIONTIMER 200).CreateTimer true
        ProfilerTimerType.PROFILEDURATIONTIMER 300 =
      (HSAAPIInfoManager.ctor false 0 false 0 true).CreateTimer true
        ProfilerTimerType.PROFILEDURATIONTIMER 200 :=
  ⟨(C7_create_timer_frame true (HSAAPIInfoManager.ctor false 0 false 0 true)
      ProfilerTimerType.PROFILEDURATIONTIMER 200).2.2.2.2.2.2.2 rfl rfl (by decide) rfl,
    (C7_create_timer_frame true
      ((HSAAPIInfoManager.ctor false 0 false 0 true).CreateTimer true
        ProfilerTimerType.PROFILEDURATIONTIMER 200)
      ProfilerTimerType.PROFILEDURATIONTIMER 300).2.2.2.1 rfl (Or.inl (by decide))⟩

/-- C8, as stated, fails: with the delay timer created and a duration of 0 ms
enabled through EnableProfileDuration(true, 0), the completion of the delay
timer does not complete; no duration timer is created and the call ends in a
null dereference. -/
theorem C8_zero_duration_counterexample :
    HSATraceAgentTimerEndResponse true
      (((HSAAPIInfoManager.ctor false 0 false 0 false).CreateTimer true
        ProfilerTimerType.PROFILEDELAYTIMER 100).EnableProfileDuration true 0)
      ProfilerTimerType.PROFILEDELAYTIMER = none ∧
    ((((HSAAPIInfoManager.ctor false 0 false 0 false).CreateTimer true
        ProfilerTimerType.PROFILEDELAYTIMER 100).EnableProfileDuration true 0).ResumeTracing.CreateTimer
      true ProfilerTimerType.PROFILEDURATIONTIMER 0).m_durationTimer = none := by
  decide

/-- C8, amended: the completion of the delay timer with a profile duration enabled,
when the duration timer is already present or the duration is positive and
the timer allocation succeeds, completes, makes tracing active and leaves the
duration timer created (with the stored duration as interval when it was
absent), started and carrying HSATraceAgentTimerEndResponse as finish
handler; with no profile duration enabled it completes and makes tracing
active; with a duration of 0 and no duration timer CreateTimer creates none;
the completion of the duration timer makes tracing inactive. -/
theorem C8_timer_end_response (allocOk : Bool) (s : HSAAPIInfoManager) :
    (s.m_bProfilerDurationEnabled = true →
      (s.m_durationTimer ≠ none ∨ (0 < s.m_durationInMilliseconds ∧ allocOk = true)) →
      ∃ s1 t,
        HSATraceAgentTimerEndResponse allocOk s ProfilerTimerType.PROFILEDELAYTIMER = some s1 ∧
        s1.IsTracing = true ∧ s1.m_durationTimer = some t ∧ t.m_started = true ∧
        t.m_finishHandler = some TimerEndHandler.HSATraceAgentTimerEndResponse ∧
        (s.m_durationTimer = none → t.m_interval = s.m_durationInMilliseconds)) ∧
    (s.m_bProfilerDurationEnabled = false →
      ∃ s1, HSATraceAgentTimerEndResponse allocOk s ProfilerTimerType.PROFILEDELAYTIMER =
          some s1 ∧
        s1.IsTracing = true ∧ s1.m_durationTimer = s.m_durationTimer) ∧
    (s.m_durationTimer = none →
      (s.ResumeTracing.CreateTimer allocOk ProfilerTimerType.PROFILEDURATIONTIMER
        0).m_durationTimer = none) ∧
    (∃ s1, HSATraceAgentTimerEndResponse allocOk s ProfilerTimerType.PROFILEDURATIONTIMER =
        some s1 ∧
      s1.IsTracing = false) := by
  refine ⟨?_, ?_, ?_, ?_⟩
  · intro hen hcan
    cases hdt : s.m_durationTimer with
    | some t0 =>
      refine ⟨{ s.ResumeTracing with
          m_durationTimer := some (t0.SetTimerFinishHandler
            TimerEndHandler.HSATraceAgentTimerEndResponse).startTimer },
        (t0.SetTimerFinishHandler TimerEndHandler.HSATraceAgentTimerEndResponse).startTimer,
        ?_, rfl, rfl, rfl, rfl, ?_⟩
      · simp [HSATraceAgentTimerEndResponse, HSAAPIInfoManager.ResumeTracing,
          HSAAPIInfoManager.IsProfilerDurationEnabled, hen, HSAAPIInfoManager.CreateTimer,
          hdt, HSAAPIInfoManager.SetTimerFinishHandler, HSAAPIInfoManager.startTimer]
      · intro h; cases h
    | none =>
      rcases hcan with h | ⟨hpos, hok⟩
      · exact absurd hdt h
      · subst hok
        refine ⟨{ s.ResumeTracing with
            m_durationTimer := some (((ProfilerTimer.new s.m_durationInMilliseconds).SetTimerType
              ProfilerTimerType.PROFILEDURATIONTIMER).SetTimerFinishHandler
                TimerEndHandler.HSATraceAgentTimerEndResponse).startTimer },
          (((ProfilerTimer.new s.m_durationInMilliseconds).SetTimerType
            ProfilerTimerType.PROFILEDURATIONTIMER).SetTimerFinishHandler
              TimerEndHandler.HSATraceAgentTimerEndResponse).startTimer,
          ?_, rfl, rfl, rfl, rfl, fun _ => rfl⟩
        simp [HSATraceAgentTimerEndResponse, HSAAPIInfoManager.ResumeTracing,
          HSAAPIInfoManager.IsProfilerDurationEnabled, hen, HSAAPIInfoManager.CreateTimer,
          hdt, hpos, HSAAPIInfoManager.SetTimerFinishHandler, HSAAPIInfoManager.startTimer]
  · intro hen
    refine ⟨s.ResumeTracing, ?_, rfl, rfl⟩
    simp [HSATraceAgentTimerEndResponse, HSAAPIInfoManager.IsProfilerDurationEnabled,
      HSAAPIInfoManager.ResumeTracing, hen]
  · intro hdt
    simp [HSAAPIInfoManager.CreateTimer, HSAAPIInfoManager.ResumeTracing, hdt]
  · exact ⟨s.StopTracing, rfl, rfl⟩

/-- C8 at a manager with the delay timer created and a duration of 200 ms enabled:
the completion of the delay timer makes tracing active and leaves a started
duration timer of interval 200 with the finish handler set. -/
theorem C8_timer_end_response_witness :
    ∃ s1 t,
      HSATraceAgentTimerEndResponse true
        (((HSAAPIInfoManager.ctor false 0 false 0 false).CreateTimer true
          ProfilerTimerType.PROFILEDELAYTIMER 100).EnableProfileDuration true 200)
        ProfilerTimerType.PROFILEDELAYTIMER = some s1 ∧
      s1.IsTracing = true ∧ s1.m_durationTimer = some t ∧ t.m_started = true ∧
      t.m_finishHandler = some TimerEndHandler.HSATraceAgentTimerEndResponse ∧
      t.m_interval = 200 := by
  obtain ⟨s1, t, h1, h2, h3, h4, h5, h6⟩ :=
    (C8_timer_end_response true
      (((HSAAPIInfoManager.ctor false 0 false 0 false).CreateTimer true
        ProfilerTimerType.PROFILEDELAYTIMER 100).EnableProfileDuration true 200)).1 rfl
      (Or.inr ⟨by decide, rfl⟩)
  exact ⟨s1, t, h1, h2, h3, h4, h5, h6 rfl⟩

/-- C9: on a constructed manager configured with EnableProfileDelayStart(true, 100),
EnableProfileDuration(true, 200), CreateTimer, SetTimerFinishHandler and
startTimer for the delay timer, and tracing stopped, the setup completes with
the delay timer running and no duration timer (none exists after any prefix
of the setup either); tracing is inactive before the delay timer fires, active after it fires (with the duration timer of interval
200 now running), and inactive after the duration timer fires. -/
theorem C9_delay_then_duration (a : Bool) (b : Nat) (c : Bool) (d : Nat) (e : Bool) :
    ∃ s0 s1 s2,
      Op.run (HSAAPIInfoManager.ctor a b c d e)
        [Op.EnableProfileDelayStart true 100, Op.EnableProfileDuration true 200,
          Op.CreateTimer true ProfilerTimerType.PROFILEDELAYTIMER 100,
          Op.SetTimerFinishHandler ProfilerTimerType.PROFILEDELAYTIMER
            TimerEndHandler.HSATraceAgentTimerEndResponse,
          Op.startTimer ProfilerTimerType.PROFILEDELAYTIMER, Op.StopTracing] = some s0 ∧
      HSATraceAgentTimerEndResponse true s0 ProfilerTimerType.PROFILEDELAYTIMER = some s1 ∧
      HSATraceAgentTimerEndResponse true s1 ProfilerTimerType.PROFILEDURATIONTIMER = some s2 ∧
      s0.IsProfilerDelayEnabled = (true, 100) ∧ s0.IsProfilerDurationEnabled = (true, 200) ∧
      s0.m_delayTimer =
        some { m_interval := 100, m_timerType := some ProfilerTimerType.PROFILEDELAYTIMER,
               m_finishHandler := some TimerEndHandler.HSATraceAgentTimerEndResponse,
               m_started := true } ∧
      s0.m_durationTimer = none ∧
      s0.IsTracing = false ∧
      s1.IsTracing = true ∧
      s1.m_durationTimer =
        some { m_interval := 200, m_timerType := some ProfilerTimerType.PROFILEDURATIONTIMER,
               m_finishHandler := some TimerEndHandler.HSATraceAgentTimerEndResponse,
               m_started := true } ∧
      s2.IsTracing = false ∧
      s2.m_durationTimer = s1.m_durationTimer ∧
      (∀ n, ∃ sn,
        Op.run (HSAAPIInfoManager.ctor a b c d e)
          ([Op.EnableProfileDelayStart true 100, Op.EnableProfileDuration true 200,
            Op.CreateTimer true ProfilerTimerType.PROFILEDELAYTIMER 100,
            Op.SetTimerFinishHandler ProfilerTimerType.PROFILEDELAYTIMER
              TimerEndHandler.HSATraceAgentTimerEndResponse,
            Op.startTimer ProfilerTimerType.PROFILEDELAYTIMER, Op.StopTracing].take n) =
          some sn ∧
        sn.m_durationTimer = none) := by
  refine ⟨_, _, _, rfl, rfl, rfl, rfl, rfl, rfl, rfl, rfl, rfl, rfl, rfl, rfl, ?_⟩
  intro n
  have hall : ∃ sn,
      Op.run (HSAAPIInfoManager.ctor a b c d e)
        [Op.EnableProfileDelayStart true 100, Op.EnableProfileDuration true 200,
          Op.CreateTimer true ProfilerTimerType.PROFILEDELAYTIMER 100,
          Op.SetTimerFinishHandler ProfilerTimerType.PROFILEDELAYTIMER
            TimerEndHandler.HSATraceAgentTimerEndResponse,
          Op.startTimer ProfilerTimerType.PROFILEDELAYTIMER, Op.StopTracing] = some sn ∧
      sn.m_durationTimer = none := ⟨_, rfl, rfl⟩
  match n with
  | 0 => exact ⟨_, rfl, rfl⟩
  | 1 => exact ⟨_, rfl, rfl⟩
  | 2 => exact ⟨_, rfl, rfl⟩
  | 3 => exact ⟨_, rfl, rfl⟩
  | 4 => exact ⟨_, rfl, rfl⟩
  | 5 => exact ⟨_, rfl, rfl⟩
  | k + 6 =>
    rw [List.take_of_length_le (by simp)]
    exact hall

/-! ## Flush of the async-copy timestamps -/

theorem FileSystem.append_failed (fs : FileSystem) (path text p : String) :
    fs.append false path text p = fs p := by
  simp [FileSystem.append]

theorem left_setw_length (w : Nat) (text : String) :
    (left_setw w text).length = max w text.length := by
  simp only [left_setw, String.length_append, String.length_mk, List.length_replicate]
  omega

theorem left_setw_data (w : Nat) (text : String) :
    (left_setw w text).data = text.data ++ List.replicate (w - text.length) ' ' := by
  simp [left_setw]

/-- C11: for every record, manager state and outcome of the lookups the text added
by WriteKernelTimestampEntry is the concatenation, with nothing in between,
of eight left-justified fields in the order name, kernel handle, start, end,
device name, agent handle, queue index, queue handle; a field is its value in
full followed by spaces only, and is at least as wide as its width 50, 21,
21, 21, 64, 21, 6, 21; the name field is max(50, length of name + 1) wide, so
at least one space follows the name, and the added text is at least 225
characters long. -/
theorem C11_kernel_record_layout (env : RecordWriterEnv) (s : HSAAPIInfoManager)
    (sout : String) (record : hsa_profiler_kernel_time_t) :
    (s.WriteKernelTimestampEntry env sout record).2 =
      sout ++
        left_setw (max 50 ((HSAAPIInfoManager.kernelSymName env record.kernel).length + 1))
          (HSAAPIInfoManager.kernelSymName env record.kernel) ++
        left_setw 21 (env.ToHexString record.kernel) ++
        left_setw 21 (uint64_text record.time.start) ++
        left_setw 21 (uint64_text record.time.«end») ++
        left_setw 64 (HSAAPIInfoManager.kernelDeviceName env record.agent) ++
        left_setw 21 (env.Get_hsa_agent_t_String record.agent) ++
        left_setw 6 (env.ToString (s.GetQueueIndex record.queue 0).2) ++
        left_setw 21 (env.ToHexString record.queue) ∧
    (∀ w value, w ≤ (left_setw w value).length ∧ value.length ≤ (left_setw w value).length ∧
      (left_setw w value).data = value.data ++ List.replicate (w - value.length) ' ') ∧
    (left_setw (max 50 ((HSAAPIInfoManager.kernelSymName env record.kernel).length + 1))
        (HSAAPIInfoManager.kernelSymName env record.kernel)).length =
      max 50 ((HSAAPIInfoManager.kernelSymName env record.kernel).length + 1) ∧
    0 < max 50 ((HSAAPIInfoManager.kernelSymName env record.kernel).length + 1) -
      (HSAAPIInfoManager.kernelSymName env record.kernel).length ∧
    sout.length + 225 ≤ (s.WriteKernelTimestampEntry env sout record).2.length := by
  refine ⟨rfl, ?_, ?_, ?_, ?_⟩
  · intro w value
    refine ⟨?_, ?_, left_setw_data w value⟩ <;> rw [left_setw_length] <;> omega
  · rw [left_setw_length]; omega
  · omega
  · simp only [HSAAPIInfoManager.WriteKernelTimestampEntry, String.length_append,
      left_setw_length]
    omega

/-- C12: WriteKernelTimestampEntry always returns true. The name it prints is the
mapped name when the code handle is in the code-handle map, the symbol handle
found there is in the name map and the mapped name is not empty, and is
"<UnknownKernelName>" in every other case; the device name it prints is the
catalog name when the chip-id query and the catalog lookup both succeed, and
is "<UnknownDeviceName>" in every other case. -/
theorem C12_placeholders (env : RecordWriterEnv) (s : HSAAPIInfoManager) (sout : String)
    (record : hsa_profiler_kernel_time_t) :
    (s.WriteKernelTimestampEntry env sout record).1 = true ∧
    (s.WriteKernelTimestampEntry env sout record).2 =
      sout ++
        left_setw (max 50 ((HSAAPIInfoManager.kernelSymName env record.kernel).length + 1))
          (HSAAPIInfoManager.kernelSymName env record.kernel) ++
        left_setw 21 (env.ToHexString record.kernel) ++
        left_setw 21 (uint64_text record.time.start) ++
        left_setw 21 (uint64_text record.time.«end») ++
        left_setw 64 (HSAAPIInfoManager.kernelDeviceName env record.agent) ++
        left_setw 21 (env.Get_hsa_agent_t_String record.agent) ++
        left_setw 6 (env.ToString (s.GetQueueIndex record.queue 0).2) ++
        left_setw 21 (env.ToHexString record.queue) ∧
    (∀ symHandle name,
      env.pFinalizerInfoMan.m_codeHandleToSymbolHandleMap record.kernel = some symHandle →
      env.pFinalizerInfoMan.m_symbolHandleToNameMap symHandle = some name → name ≠ "" →
      HSAAPIInfoManager.kernelSymName env record.kernel = name) ∧
    ((env.pFinalizerInfoMan.m_codeHandleToSymbolHandleMap record.kernel = none ∨
        ∃ symHandle,
          env.pFinalizerInfoMan.m_codeHandleToSymbolHandleMap record.kernel = some symHandle ∧
          (env.pFinalizerInfoMan.m_symbolHandleToNameMap symHandle = none ∨
            env.pFinalizerInfoMan.m_symbolHandleToNameMap symHandle = some "")) →
      HSAAPIInfoManager.kernelSymName env record.kernel = "<UnknownKernelName>") ∧
    (∀ deviceId szCALName,
      env.hsa_agent_get_info_fn record.agent = some deviceId →
      env.GetDeviceInfo deviceId = some szCALName →
      HSAAPIInfoManager.kernelDeviceName env record.agent = szCALName) ∧
    ((env.hsa_agent_get_info_fn record.agent = none ∨
        ∃ deviceId, env.hsa_agent_get_info_fn record.agent = some deviceId ∧
          env.GetDeviceInfo deviceId = none) →
      HSAAPIInfoManager.kernelDeviceName env record.agent = "<UnknownDeviceName>") := by
  refine ⟨rfl, rfl, ?_, ?_, ?_, ?_⟩
  · intro symHandle name h1 h2 h3
    have hne : name.isEmpty = false := by
      cases hb : name.isEmpty with
      | false => rfl
      | true => exact absurd ((String.isEmpty_iff name).1 hb) h3
    simp [HSAAPIInfoManager.kernelSymName, h1, h2, hne]
  · intro h
    rcases h with h | ⟨symHandle, h1, h2 | h2⟩
    · simp [HSAAPIInfoManager.kernelSymName, h]
      rfl
    · simp [HSAAPIInfoManager.kernelSymName, h1, h2]
      rfl
    · simp [HSAAPIInfoManager.kernelSymName, h1, h2]
      rfl
  · intro deviceId szCALName h1 h2
    simp [HSAAPIInfoManager.kernelDeviceName, h1, h2]
  · intro h
    rcases h with h | ⟨deviceId, h1, h2⟩
    · simp [HSAAPIInfoManager.kernelDeviceName, h]
    · simp [HSAAPIInfoManager.kernelDeviceName, h1, h2]

/-- C12 at a finalizer that maps code handle 1 to symbol 10 named "vecadd" and a
runtime whose chip-id query fails: the kernel with handle 1 is printed as
"vecadd", the kernel with handle 2 as "<UnknownKernelName>", and the device as
"<UnknownDeviceName>". -/
theorem C12_placeholders_witness :
    HSAAPIInfoManager.kernelSymName
      { pFinalizerInfoMan :=
          { m_codeHandleToSymbolHandleMap := fun k => if k = 1 then some 10 else none,
            m_symbolHandleToNameMap := fun h => if h = 10 then some "vecadd" else none },
        hsa_agent_get_info_fn := fun _ => none, GetDeviceInfo := fun _ => none,
        ToHexString := fun _ => "", Get_hsa_agent_t_String := fun _ => "",
        ToString := fun _ => "" } 1 = "vecadd" ∧
    HSAAPIInfoManager.kernelSymName
      { pFinalizerInfoMan :=
          { m_codeHandleToSymbolHandleMap := fun k => if k = 1 then some 10 else none,
            m_symbolHandleToNameMap := fun h => if h = 10 then some "vecadd" else none },
        hsa_agent_get_info_fn := fun _ => none, GetDeviceInfo := fun _ => none,
        ToHexString := fun _ => "", Get_hsa_agent_t_String := fun _ => "",
        ToString := fun _ => "" } 2 = "<UnknownKernelName>" ∧
    HSAAPIInfoManager.kernelDeviceName
      { pFinalizerInfoMan :=
          { m_codeHandleToSymbolHandleMap := fun k => if k = 1 then some 10 else none,
            m_symbolHandleToNameMap := fun h => if h = 10 then some "vecadd" else none },
        hsa_agent_get_info_fn := fun _ => none, GetDeviceInfo := fun _ => none,
        ToHexString := fun _ => "", Get_hsa_agent_t_String := fun _ => "",
        ToString := fun _ => "" } 7 = "<UnknownDeviceName>" :=
  ⟨(C12_placeholders
      { pFinalizerInfoMan :=
          { m_codeHandleToSymbolHandleMap := fun k => if k = 1 then some 10 else none,
            m_symbolHandleToNameMap := fun h => if h = 10 then some "vecadd" else none },
        hsa_agent_get_info_fn := fun _ => none, GetDeviceInfo := fun _ => none,
        ToHexString := fun _ => "", Get_hsa_agent_t_String := fun _ => "",
        ToString := fun _ => "" } (HSAAPIInfoManager.ctor false 0 false 0 true) "" ⟨1, ⟨0, 0⟩, 7, 0⟩).2.2.1
      10 "vecadd" rfl rfl (by decide),
    (C12_placeholders
      { pFinalizerInfoMan :=
          { m_codeHandleToSymbolHandleMap := fun k => if k = 1 then some 10 else none,
            m_symbolHandleToNameMap := fun h => if h = 10 then some "vecadd" else none },
        hsa_agent_get_info_fn := fun _ => none, GetDeviceInfo := fun _ => none,
        ToHexString := fun _ => "", Get_hsa_agent_t_String := fun _ => "",
        ToString := fun _ => "" } (HSAAPIInfoManager.ctor false 0 false 0 true) "" ⟨2, ⟨0, 0⟩, 7, 0⟩).2.2.2.1
      (Or.inl rfl),
    (C12_placeholders
      { pFinalizerInfoMan :=
          { m_codeHandleToSymbolHandleMap := fun k => if k = 1 then some 10 else none,
            m_symbolHandleToNameMap := fun h => if h = 10 then some "vecadd" else none },
        hsa_agent_get_info_fn := fun _ => none, GetDeviceInfo := fun _ => none,
        ToHexString := fun _ => "", Get_hsa_agent_t_String := fun _ => "",
        ToString := fun _ => "" } (HSAAPIInfoManager.ctor false 0 false 0 true) "" ⟨1, ⟨0, 0⟩, 7, 0⟩).2.2.2.2.2
      (Or.inl rfl)⟩

/-! ### Decimal fields -/

theorem digitChar_value (m : Nat) (h : m < 10) :
    (Nat.digitChar m).toNat - 48 = m ∧ Nat.digitChar m ≠ ' ' := by
  interval_cases m <;> exact ⟨rfl, by decide⟩

/-- The digits produced by `Nat.toDigitsCore` in base 10 are put in front of the
accumulator, contain no space and read back as the number. -/
theorem toDigitsCore_spec (fuel n : Nat) (ds : List Char) (h : n < fuel) :
    ∃ pre, Nat.toDigitsCore 10 fuel n ds = pre ++ ds ∧
      pre.foldl (fun acc c => acc * 10 + (c.toNat - 48)) 0 = n ∧
      ∀ c ∈ pre, c ≠ ' ' := by
  induction fuel generalizing n ds with
  | zero => omega
  | succ fuel ih =>
    have hd := digitChar_value (n % 10) (Nat.mod_lt n (by decide))
    by_cases hz : n / 10 = 0
    · refine ⟨[Nat.digitChar (n % 10)], ?_, ?_, ?_⟩
      · simp [Nat.toDigitsCore, hz]
      · simp only [List.foldl_cons, List.foldl_nil, hd.1]
        omega
      · intro c hc
        rw [List.mem_singleton.1 hc]
        exact hd.2
    · obtain ⟨pre, h1, h2, h3⟩ := ih (n / 10) (Nat.digitChar (n % 10) :: ds) (by omega)
      refine ⟨pre ++ [Nat.digitChar (n % 10)], ?_, ?_, ?_⟩
      · simp only [Nat.toDigitsCore, hz, if_false, h1, List.append_assoc, List.singleton_append]
      · rw [List.foldl_append, h2]
        simp only [List.foldl_cons, List.foldl_nil, hd.1]
        omega
      · intro c hc
        rcases List.mem_append.1 hc with hc | hc
        · exact h3 c hc
        · rw [List.mem_singleton.1 hc]
          exact hd.2

theorem uint64_text_spec (n : Nat) :
    (uint64_text n).data.foldl (fun acc c => acc * 10 + (c.toNat - 48)) 0 = n ∧
    ∀ c ∈ (uint64_text n).data, c ≠ ' ' := by
  obtain ⟨pre, h1, h2, h3⟩ := toDigitsCore_spec (n + 1) n [] (by omega)
  have hdata : (uint64_text n).data = pre := by
    show Nat.toDigitsCore 10 (n + 1) n [] = pre
    rw [h1, List.append_nil]
  rw [hdata]
  exact ⟨h2, h3⟩

theorem uint64_text_length (n : Nat) (h : n < 2 ^ 64) : (uint64_text n).length ≤ 20 :=
  Nat.repr_length n 20 (by decide) (lt_trans h (by norm_num))

theorem takeWhile_not_space (l : List Char) (k : Nat) (h : ∀ c ∈ l, c ≠ ' ') :
    (l ++ List.replicate (k + 1) ' ').takeWhile (fun c => c != ' ') = l := by
  induction l with
  | nil => simp [List.replicate_succ]
  | cons x rest ih =>
    have hx : (x != ' ') = true := by
      simpa using h x (List.mem_cons_self _ _)
    rw [List.cons_append, List.takeWhile_cons, if_pos hx,
      ih (fun c hc => h c (List.mem_cons_of_mem _ hc))]

theorem field_data_injective (a b : Nat) (ha : a < 2 ^ 64) (hb : b < 2 ^ 64)
    (h : (left_setw 21 (uint64_text a)).data = (left_setw 21 (uint64_text b)).data) :
    a = b := by
  have la := uint64_text_length a ha
  have lb := uint64_text_length b hb
  rw [left_setw_data, left_setw_data] at h
  have ea : 21 - (uint64_text a).length = (20 - (uint64_text a).length) + 1 := by omega
  have eb : 21 - (uint64_text b).length = (20 - (uint64_text b).length) + 1 := by omega
  rw [ea, eb] at h
  have hh := congrArg (List.takeWhile (fun c => c != ' ')) h
  rw [takeWhile_not_space _ _ (uint64_text_spec a).2,
    takeWhile_not_space _ _ (uint64_text_spec b).2] at hh
  rw [← (uint64_text_spec a).1, hh, (uint64_text_spec b).1]

/-- C13: for every pair of unsigned 64-bit start and end values
WriteAsyncCopyTimestamp returns true and adds exactly 42 characters: the
decimal start value (at most 20 digits) followed by spaces up to 21 columns,
then the decimal end value followed by spaces up to 21 columns; each value
is followed by at least one space, and two records that produce the same
text are the same record. -/
theorem C13_async_copy_layout (sout : String) (t : hsa_amd_profiling_async_copy_time_t)
    (hs : t.start < 2 ^ 64) (he : t.«end» < 2 ^ 64) :
    (HSAAPIInfoManager.WriteAsyncCopyTimestamp sout t).1 = true ∧
    (HSAAPIInfoManager.WriteAsyncCopyTimestamp sout t).2 =
      sout ++ left_setw 21 (uint64_text t.start) ++ left_setw 21 (uint64_text t.«end») ∧
    (HSAAPIInfoManager.WriteAsyncCopyTimestamp sout t).2.length = sout.length + 42 ∧
    (left_setw 21 (uint64_text t.start)).length = 21 ∧
    (left_setw 21 (uint64_text t.«end»)).length = 21 ∧
    (left_setw 21 (uint64_text t.start)).data =
      (uint64_text t.start).data ++ ' ' :: List.replicate (20 - (uint64_text t.start).length) ' ' ∧
    (left_setw 21 (uint64_text t.«end»)).data =
      (uint64_text t.«end»).data ++ ' ' :: List.replicate (20 - (uint64_text t.«end»).length) ' ' ∧
    (uint64_text t.start).length ≤ 20 ∧ (uint64_text t.«end»).length ≤ 20 ∧
    (∀ t2 : hsa_amd_profiling_async_copy_time_t, t2.start < 2 ^ 64 → t2.«end» < 2 ^ 64 →
      (HSAAPIInfoManager.WriteAsyncCopyTimestamp "" t2).2 =
        (HSAAPIInfoManager.WriteAsyncCopyTimestamp "" t).2 → t2 = t) := by
  have ls := uint64_text_length t.start hs
  have le := uint64_text_length t.«end» he
  have fs : (left_setw 21 (uint64_text t.start)).length = 21 := by
    rw [left_setw_length]; omega
  have fe : (left_setw 21 (uint64_text t.«end»)).length = 21 := by
    rw [left_setw_length]; omega
  refine ⟨rfl, rfl, ?_, fs, fe, ?_, ?_, ls, le, ?_⟩
  · simp only [HSAAPIInfoManager.WriteAsyncCopyTimestamp, String.length_append, fs, fe]
  · rw [left_setw_data, ← List.replicate_succ]
    congr 2
    omega
  · rw [left_setw_data, ← List.replicate_succ]
    congr 2
    omega
  · intro t2 hs2 he2 heq
    have fs2 : (left_setw 21 (uint64_text t2.start)).length = 21 := by
      rw [left_setw_length]; have := uint64_text_length t2.start hs2; omega
    have hd := congrArg String.data heq
    simp only [HSAAPIInfoManager.WriteAsyncCopyTimestamp, String.data_append] at hd
    have hd2 : (left_setw 21 (uint64_text t2.start)).data ++
        (left_setw 21 (uint64_text t2.«end»)).data =
        (left_setw 21 (uint64_text t.start)).data ++
          (left_setw 21 (uint64_text t.«end»)).data := by
      simpa using hd
    have hlen : (left_setw 21 (uint64_text t2.start)).data.length =
        (left_setw 21 (uint64_text t.start)).data.length := by
      show (left_setw 21 (uint64_text t2.start)).length =
        (left_setw 21 (uint64_text t.start)).length
      rw [fs, fs2]
    obtain ⟨h1, h2⟩ := List.append_inj hd2 hlen
    have e1 := field_data_injective t2.start t.start hs2 hs h1
    have e2 := field_data_injective t2.«end» t.«end» he2 he h2
    cases t
    cases t2
    simp only at e1 e2
    rw [e1, e2]

/-- C13 at the record with start 5 and end the largest 64-bit value: the text is
42 characters long. -/
theorem C13_async_copy_layout_witness :
    (5 : Nat) < 2 ^ 64 ∧ (18446744073709551615 : Nat) < 2 ^ 64 ∧
    (HSAAPIInfoManager.WriteAsyncCopyTimestamp "" ⟨5, 18446744073709551615⟩).2.length =
      "".length + 42 :=
  ⟨by decide, by decide,
    (C13_async_copy_layout "" ⟨5, 18446744073709551615⟩ (by decide) (by decide)).2.2.1⟩

/-! ## Async completion handler -/

/-- C14: AsyncSignalHandler always returns false. With a handler context whose
async-copy-time query succeeds the manager afterwards is the old one with
exactly that record appended at the end of the buffer; when the query fails,
or the context is null, the manager (its buffer included) is unchanged. -/
theorem C14_async_signal_handler
    (hsa_amd_profiling_get_async_copy_time_fn :
      Nat → Option hsa_amd_profiling_async_copy_time_t)
    (s : HSAAPIInfoManager) (arg : Option Nat) :
    (AsyncSignalHandler hsa_amd_profiling_get_async_copy_time_fn s arg).1 = false ∧
    (∀ m_signal asyncCopyTime, arg = some m_signal →
      hsa_amd_profiling_get_async_copy_time_fn m_signal = some asyncCopyTime →
      (AsyncSignalHandler hsa_amd_profiling_get_async_copy_time_fn s arg).2 =
        { s with m_asyncCopyTimestamps := s.m_asyncCopyTimestamps ++ [asyncCopyTime] }) ∧
    (∀ m_signal, arg = some m_signal →
      hsa_amd_profiling_get_async_copy_time_fn m_signal = none →
      (AsyncSignalHandler hsa_amd_profiling_get_async_copy_time_fn s arg).2 = s) ∧
    (arg = none →
      (AsyncSignalHandler hsa_amd_profiling_get_async_copy_time_fn s arg).2 = s) := by
  refine ⟨?_, ?_, ?_, ?_⟩
  · unfold AsyncSignalHandler
    split
    · rfl
    · split <;> rfl
  · intro m_signal asyncCopyTime ha hq
    subst ha
    simp [AsyncSignalHandler, hq, HSAAPIInfoManager.AddAsyncCopyTimestamp]
  · intro m_signal ha hq
    subst ha
    simp [AsyncSignalHandler, hq]
  · intro ha
    subst ha
    rfl

/-- C14 at a manager whose buffer holds (1, 2) and a query that answers (3, 4): the
buffer afterwards is (1, 2), (3, 4). -/
theorem C14_async_signal_handler_witness :
    (AsyncSignalHandler (fun _ => some ⟨3, 4⟩)
      ((HSAAPIInfoManager.ctor false 0 false 0 true).AddAsyncCopyTimestamp ⟨1, 2⟩)
      (some 9)).2.m_asyncCopyTimestamps = [⟨1, 2⟩, ⟨3, 4⟩] :=
  congrArg HSAAPIInfoManager.m_asyncCopyTimestamps
    ((C14_async_signal_handler (fun _ => some ⟨3, 4⟩)
      ((HSAAPIInfoManager.ctor false 0 false 0 true).AddAsyncCopyTimestamp ⟨1, 2⟩)
      (some 9)).2.1 9 ⟨3, 4⟩ rfl rfl)

/-! ## Filter set -/

namespace HSAAPIInfoManager

theorem SAFE_DELETE_filter (s : HSAAPIInfoManager) (p : Option HSAAPIBase) :
    (s.SAFE_DELETE p).m_filterAPIs = s.m_filterAPIs := by
  cases p <;> rfl

theorem AddAPIInfoEntry_filter (cap : Fin UINT_RANGE) (s s1 : HSAAPIInfoManager)
    (api : Option APIBase) (h : s.AddAPIInfoEntry cap api = some s1) :
    s1.m_filterAPIs = s.m_filterAPIs := by
  unfold AddAPIInfoEntry at h
  split at h
  · cases h; exact SAFE_DELETE_filter _ _
  · split at h
    · cases h
    · split at h
      · cases h; rfl
      · cases h; rfl

theorem SetTimerFinishHandler_filter (s s1 : HSAAPIInfoManager) (k : ProfilerTimerType)
    (hd : TimerEndHandler) (h : s.SetTimerFinishHandler k hd = some s1) :
    s1.m_filterAPIs = s.m_filterAPIs := by
  unfold SetTimerFinishHandler at h
  split at h
  · split at h
    · split at h
      · cases h; rfl
      · cases h
    · split at h
      · cases h; rfl
      · cases h
    · cases h; rfl
  · cases h; rfl

theorem startTimer_filter (s s1 : HSAAPIInfoManager) (k : ProfilerTimerType)
    (h : s.startTimer k = some s1) : s1.m_filterAPIs = s.m_filterAPIs := by
  unfold startTimer at h
  split at h
  · split at h
    · split at h
      · cases h; rfl
      · cases h
    · split at h
      · cases h; rfl
      · cases h
    · cases h; rfl
  · cases h; rfl

theorem CreateTimer_filter (ok : Bool) (s : HSAAPIInfoManager) (k : ProfilerTimerType)
    (t : Nat) : (s.CreateTimer ok k t).m_filterAPIs = s.m_filterAPIs := by
  unfold CreateTimer
  split
  · split
    · split <;> rfl
    · rfl
  · split
    · split <;> rfl
    · rfl
  · rfl

theorem AddQueue_filter (s : HSAAPIInfoManager) (q : Nat) :
    (s.AddQueue q).m_filterAPIs = s.m_filterAPIs := by
  unfold AddQueue
  split <;> rfl

theorem FlushNonAPITimestampData_filter (env : FlushEnv) (s : HSAAPIInfoManager)
    (fs : FileSystem) (pid : Nat) :
    (s.FlushNonAPITimestampData env fs pid).1.m_filterAPIs = s.m_filterAPIs := by
  unfold FlushNonAPITimestampData
  split <;> rfl

theorem AddAPIToFilter_unknown (f : String → HSA_API_Type) (s : HSAAPIInfoManager)
    (name : String) (h : HSA_API_Type.HSA_API_Type_UNKNOWN ∉ s.m_filterAPIs) :
    HSA_API_Type.HSA_API_Type_UNKNOWN ∉ (s.AddAPIToFilter f name).m_filterAPIs := by
  unfold AddAPIToFilter
  split
  · rename_i hne
    simp only [Finset.mem_insert, not_or]
    exact ⟨fun e => hne e.symm, h⟩
  · exact h

end HSAAPIInfoManager

theorem AsyncSignalHandler_filter
    (q : Nat → Option hsa_amd_profiling_async_copy_time_t) (s : HSAAPIInfoManager)
    (arg : Option Nat) : (AsyncSignalHandler q s arg).2.m_filterAPIs = s.m_filterAPIs := by
  unfold AsyncSignalHandler
  split
  · rfl
  · split <;> rfl

theorem HSATraceAgentTimerEndResponse_filter (ok : Bool) (s s1 : HSAAPIInfoManager)
    (k : ProfilerTimerType) (h : HSATraceAgentTimerEndResponse ok s k = some s1) :
    s1.m_filterAPIs = s.m_filterAPIs := by
  unfold HSATraceAgentTimerEndResponse at h
  split at h
  · simp only at h
    split at h
    · obtain ⟨s3, h3, h4⟩ := Option.bind_eq_some.1 h
      rw [HSAAPIInfoManager.startTimer_filter _ _ _ h4,
        HSAAPIInfoManager.SetTimerFinishHandler_filter _ _ _ _ h3,
        HSAAPIInfoManager.CreateTimer_filter]
      rfl
    · cases h; rfl
  · cases h; rfl
  · cases h; rfl

theorem Op.apply_filter_unknown (s s1 : HSAAPIInfoManager) (op : Op)
    (h : op.apply s = some s1)
    (hs : HSA_API_Type.HSA_API_Type_UNKNOWN ∉ s.m_filterAPIs) :
    HSA_API_Type.HSA_API_Type_UNKNOWN ∉ s1.m_filterAPIs := by
  cases op with
  | AddAPIToFilter f name =>
    cases h; exact HSAAPIInfoManager.AddAPIToFilter_unknown _ _ _ hs
  | AddQueue q => cases h; rw [HSAAPIInfoManager.AddQueue_filter]; exact hs
  | AddAPIInfoEntry cap api =>
    rw [HSAAPIInfoManager.AddAPIInfoEntry_filter _ _ _ _ h]; exact hs
  | EnableProfileDelayStart e d => cases h; exact hs
  | EnableProfileDuration e d => cases h; exact hs
  | SetTimerFinishHandler k hd =>
    rw [HSAAPIInfoManager.SetTimerFinishHandler_filter _ _ _ _ h]; exact hs
  | CreateTimer ok k t => cases h; rw [HSAAPIInfoManager.CreateTimer_filter]; exact hs
  | startTimer k => rw [HSAAPIInfoManager.startTimer_filter _ _ _ h]; exact hs
  | AddAsyncCopyTimestamp t => cases h; exact hs
  | AsyncSignalHandler q arg => cases h; rw [AsyncSignalHandler_filter]; exact hs
  | FlushNonAPITimestampData env fs pid =>
    cases h; rw [HSAAPIInfoManager.FlushNonAPITimestampData_filter]; exact hs
  | HSATraceAgentTimerEndResponse ok k =>
    rw [HSATraceAgentTimerEndResponse_filter _ _ _ _ h]; exact hs
  | ResumeTracing => cases h; exact hs
  | StopTracing => cases h; exact hs

theorem Op.run_filter_unknown (ops : List Op) (s s1 : HSAAPIInfoManager)
    (h : Op.run s ops = some s1)
    (hs : HSA_API_Type.HSA_API_Type_UNKNOWN ∉ s.m_filterAPIs) :
    HSA_API_Type.HSA_API_Type_UNKNOWN ∉ s1.m_filterAPIs := by
  induction ops generalizing s with
  | nil => simp only [Op.run, Option.some.injEq] at h; rw [← h]; exact hs
  | cons op rest ih =>
    simp only [Op.run] at h
    obtain ⟨s2, h2, h3⟩ := Option.bind_eq_some.1 h
    exact ih s2 h3 (Op.apply_filter_unknown s s2 op h2 hs)

/-- C15: when the name resolves to a known identifier, AddAPIToFilter makes
IsInFilterList true for that identifier, leaves IsInFilterList of every other
identifier as it was, and a second call with the same name returns the state
of the first; when the name resolves to HSA_API_Type_UNKNOWN the state is
unchanged; HSA_API_Type_UNKNOWN does not enter the filter set through
AddAPIToFilter and is in the filter set of no state reached from the
constructed manager. -/
theorem C15_add_api_to_filter (ToHSAAPIType : String → HSA_API_Type) (s : HSAAPIInfoManager)
    (strAPIName : String) :
    (ToHSAAPIType strAPIName ≠ HSA_API_Type.HSA_API_Type_UNKNOWN →
      (s.AddAPIToFilter ToHSAAPIType strAPIName).IsInFilterList (ToHSAAPIType strAPIName) =
        true ∧
      (∀ id, id ≠ ToHSAAPIType strAPIName →
        (s.AddAPIToFilter ToHSAAPIType strAPIName).IsInFilterList id = s.IsInFilterList id) ∧
      (s.AddAPIToFilter ToHSAAPIType strAPIName).AddAPIToFilter ToHSAAPIType strAPIName =
        s.AddAPIToFilter ToHSAAPIType strAPIName) ∧
    (ToHSAAPIType strAPIName = HSA_API_Type.HSA_API_Type_UNKNOWN →
      s.AddAPIToFilter ToHSAAPIType strAPIName = s) ∧
    (s.IsInFilterList HSA_API_Type.HSA_API_Type_UNKNOWN = false →
      (s.AddAPIToFilter ToHSAAPIType strAPIName).IsInFilterList
        HSA_API_Type.HSA_API_Type_UNKNOWN = false) ∧
    (∀ a b c d e ops s1, Op.run (HSAAPIInfoManager.ctor a b c d e) ops = some s1 →
      s1.IsInFilterList HSA_API_Type.HSA_API_Type_UNKNOWN = false) := by
  refine ⟨?_, ?_, ?_, ?_⟩
  · intro hne
    refine ⟨?_, ?_, ?_⟩
    · simp [HSAAPIInfoManager.IsInFilterList, HSAAPIInfoManager.AddAPIToFilter, hne]
    · intro id hid
      simp [HSAAPIInfoManager.IsInFilterList, HSAAPIInfoManager.AddAPIToFilter, hne, hid]
    · simp [HSAAPIInfoManager.AddAPIToFilter, hne]
  · intro he
    simp [HSAAPIInfoManager.AddAPIToFilter, he]
  · intro hs
    have hs1 : HSA_API_Type.HSA_API_Type_UNKNOWN ∉ s.m_filterAPIs := by
      simpa [HSAAPIInfoManager.IsInFilterList] using hs
    have := HSAAPIInfoManager.AddAPIToFilter_unknown ToHSAAPIType s strAPIName hs1
    simpa [HSAAPIInfoManager.IsInFilterList] using this
  · intro a b c d e ops s1 hrun
    have := Op.run_filter_unknown ops _ s1 hrun
      (by simp [HSAAPIInfoManager.ctor])
    simpa [HSAAPIInfoManager.IsInFilterList] using this

/-- C15 at a registry that knows only "hsa_init": adding "hsa_init" to a
constructed manager puts its identifier in the filter list, and adding an
unknown name changes nothing. -/
theorem C15_add_api_to_filter_witness :
    ((HSAAPIInfoManager.ctor false 0 false 0 true).AddAPIToFilter
      (fun n => if n = "hsa_init" then HSA_API_Type.other 1
        else HSA_API_Type.HSA_API_Type_UNKNOWN) "hsa_init").IsInFilterList
        (HSA_API_Type.other 1) = true ∧
    (HSAAPIInfoManager.ctor false 0 false 0 true).AddAPIToFilter
      (fun n => if n = "hsa_init" then HSA_API_Type.other 1
        else HSA_API_Type.HSA_API_Type_UNKNOWN) "no_such_api" =
      HSAAPIInfoManager.ctor false 0 false 0 true :=
  ⟨((C15_add_api_to_filter
      (fun n => if n = "hsa_init" then HSA_API_Type.other 1
        else HSA_API_Type.HSA_API_Type_UNKNOWN)
      (HSAAPIInfoManager.ctor false 0 false 0 true) "hsa_init").1 (by decide)).1,
    (C15_add_api_to_filter
      (fun n => if n = "hsa_init" then HSA_API_Type.other 1
        else HSA_API_Type.HSA_API_Type_UNKNOWN)
      (HSAAPIInfoManager.ctor false 0 false 0 true) "no_such_api").2.1 (by decide)⟩

/-! ## Stored delay and duration -/

/-- C16, as stated, fails: after EnableProfileDelayStart(false, 5) the query
IsProfilerDelayEnabled reports the delay 0, not 5, and likewise for
EnableProfileDuration(false, 5). -/
theorem C16_disable_counterexample :
    ((HSAAPIInfoManager.ctor false 0 false 0 true).EnableProfileDelayStart
      false 5).IsProfilerDelayEnabled = (false, 0) ∧
    ((HSAAPIInfoManager.ctor false 0 false 0 true).EnableProfileDuration
      false 5).IsProfilerDurationEnabled = (false, 0) := by
  decide

/-- C16, amended: after EnableProfileDelayStart(e, m) the query
IsProfilerDelayEnabled returns e and reports m when e is true and 0 when e is
false, and the same holds for EnableProfileDuration and
IsProfilerDurationEnabled; neither call creates, starts or alters a timer or
changes the tracing-active flag. -/
theorem C16_enable_profile (s : HSAAPIInfoManager) (e : Bool) (m : Nat) :
    (s.EnableProfileDelayStart e m).IsProfilerDelayEnabled = (e, if e then m else 0) ∧
    (s.EnableProfileDuration e m).IsProfilerDurationEnabled = (e, if e then m else 0) ∧
    (s.EnableProfileDelayStart e m).m_delayTimer = s.m_delayTimer ∧
    (s.EnableProfileDelayStart e m).m_durationTimer = s.m_durationTimer ∧
    (s.EnableProfileDelayStart e m).IsTracing = s.IsTracing ∧
    (s.EnableProfileDuration e m).m_delayTimer = s.m_delayTimer ∧
    (s.EnableProfileDuration e m).m_durationTimer = s.m_durationTimer ∧
    (s.EnableProfileDuration e m).IsTracing = s.IsTracing :=
  ⟨rfl, rfl, rfl, rfl, rfl, rfl, rfl, rfl⟩

/-! ## Queue index of an unregistered queue -/

/-- C18: GetQueueIndex is a function of the manager that yields no new manager;
for a handle that is not registered it returns false and the caller's index
as it was. WriteKernelTimestampEntry therefore prints the index 0 for a
record whose queue is not registered, and the text it writes for such a
record is the text it writes when that queue is the first registered one. -/
theorem C18_unregistered_queue_index (env : RecordWriterEnv) (s s0 : HSAAPIInfoManager)
    (sout : String) (record : hsa_profiler_kernel_time_t) :
    (∀ pQueue queueIndex, s.m_queueIndexMap.find pQueue = none →
      s.GetQueueIndex pQueue queueIndex = (false, queueIndex)) ∧
    (s.m_queueIndexMap.find record.queue = none →
      (s.WriteKernelTimestampEntry env sout record).2 =
        sout ++
          left_setw (max 50 ((HSAAPIInfoManager.kernelSymName env record.kernel).length + 1))
            (HSAAPIInfoManager.kernelSymName env record.kernel) ++
          left_setw 21 (env.ToHexString record.kernel) ++
          left_setw 21 (uint64_text record.time.start) ++
          left_setw 21 (uint64_text record.time.«end») ++
          left_setw 64 (HSAAPIInfoManager.kernelDeviceName env record.agent) ++
          left_setw 21 (env.Get_hsa_agent_t_String record.agent) ++
          left_setw 6 (env.ToString 0) ++
          left_setw 21 (env.ToHexString record.queue)) ∧
    (s0.m_queueIndexMap = [] → ∀ queueIndex,
      (s0.AddQueue record.queue).GetQueueIndex record.queue queueIndex = (true, 0)) ∧
    (s.m_queueIndexMap.find record.queue = none → s0.m_queueIndexMap = [] →
      s.WriteKernelTimestampEntry env sout record =
        (s0.AddQueue record.queue).WriteKernelTimestampEntry env sout record) := by
  have hmiss : ∀ pQueue queueIndex, s.m_queueIndexMap.find pQueue = none →
      s.GetQueueIndex pQueue queueIndex = (false, queueIndex) := by
    intro pQueue queueIndex h
    simp [HSAAPIInfoManager.GetQueueIndex, h]
  have hfirst : s0.m_queueIndexMap = [] →
      ∀ i, (s0.AddQueue record.queue).GetQueueIndex record.queue i = (true, 0) := by
    intro h0 i
    simp [HSAAPIInfoManager.GetQueueIndex, HSAAPIInfoManager.AddQueue, h0,
      QueueIndexMap.find, QueueIndexMap.insert]
  refine ⟨hmiss, ?_, hfirst, ?_⟩
  · intro h
    simp only [HSAAPIInfoManager.WriteKernelTimestampEntry, hmiss _ 0 h]
  · intro h h0
    simp only [HSAAPIInfoManager.WriteKernelTimestampEntry, hmiss _ 0 h, hfirst h0 0]

/-- C18 at a record of queue 5: the text written by a constructed manager, where
the queue is not registered, is the text written after AddQueue(5). -/
theorem C18_unregistered_queue_index_witness :
    (HSAAPIInfoManager.ctor false 0 false 0 true).WriteKernelTimestampEntry
      { pFinalizerInfoMan :=
          { m_codeHandleToSymbolHandleMap := fun _ => none,
            m_symbolHandleToNameMap := fun _ => none },
        hsa_agent_get_info_fn := fun _ => none, GetDeviceInfo := fun _ => none,
        ToHexString := fun _ => "0x0", Get_hsa_agent_t_String := fun _ => "0",
        ToString := fun n => Nat.repr n } "" ⟨1, ⟨10, 20⟩, 3, 5⟩ =
    ((HSAAPIInfoManager.ctor false 0 false 0 true).AddQueue 5).WriteKernelTimestampEntry
      { pFinalizerInfoMan :=
          { m_codeHandleToSymbolHandleMap := fun _ => none,
            m_symbolHandleToNameMap := fun _ => none },
        hsa_agent_get_info_fn := fun _ => none, GetDeviceInfo := fun _ => none,
        ToHexString := fun _ => "0x0", Get_hsa_agent_t_String := fun _ => "0",
        ToString := fun n => Nat.repr n } "" ⟨1, ⟨10, 20⟩, 3, 5⟩ :=
  (C18_unregistered_queue_index
    { pFinalizerInfoMan :=
          { m_codeHandleToSymbolHandleMap := fun _ => none,
            m_symbolHandleToNameMap := fun _ => none },
        hsa_agent_get_info_fn := fun _ => none, GetDeviceInfo := fun _ => none,
        ToHexString := fun _ => "0x0", Get_hsa_agent_t_String := fun _ => "0",
        ToString := fun n => Nat.repr n } (HSAAPIInfoManager.ctor false 0 false 0 true)
    (HSAAPIInfoManager.ctor false 0 false 0 true) "" ⟨1, ⟨10, 20⟩, 3, 5⟩).2.2.2 rfl rfl

/-! ## Stored configuration after CreateTimer -/

/-- C19: a CreateTimer(kind, t) with t > 0 on an absent timer whose allocation
succeeds stores the configuration of that kind: afterwards the query of that
kind returns true and reports t, whatever was stored before, also right after
an explicit disable; the query of the other kind answers as before. -/
theorem C19_create_timer_overwrites (s : HSAAPIInfoManager) (t : Nat) (ht : 0 < t) :
    (s.m_delayTimer = none →
      (s.CreateTimer true ProfilerTimerType.PROFILEDELAYTIMER t).IsProfilerDelayEnabled =
        (true, t) ∧
      (s.CreateTimer true ProfilerTimerType.PROFILEDELAYTIMER t).IsProfilerDurationEnabled =
        s.IsProfilerDurationEnabled ∧
      ∀ m, ((s.EnableProfileDelayStart false m).CreateTimer true
        ProfilerTimerType.PROFILEDELAYTIMER t).IsProfilerDelayEnabled = (true, t)) ∧
    (s.m_durationTimer = none →
      (s.CreateTimer true ProfilerTimerType.PROFILEDURATIONTIMER t).IsProfilerDurationEnabled =
        (true, t) ∧
      (s.CreateTimer true ProfilerTimerType.PROFILEDURATIONTIMER t).IsProfilerDelayEnabled =
        s.IsProfilerDelayEnabled ∧
      ∀ m, ((s.EnableProfileDuration false m).CreateTimer true
        ProfilerTimerType.PROFILEDURATIONTIMER t).IsProfilerDurationEnabled = (true, t)) := by
  constructor
  · intro h
    simp [HSAAPIInfoManager.CreateTimer, HSAAPIInfoManager.IsProfilerDelayEnabled,
      HSAAPIInfoManager.IsProfilerDurationEnabled, HSAAPIInfoManager.EnableProfileDelayStart,
      h, ht]
  · intro h
    simp [HSAAPIInfoManager.CreateTimer, HSAAPIInfoManager.IsProfilerDelayEnabled,
      HSAAPIInfoManager.IsProfilerDurationEnabled, HSAAPIInfoManager.EnableProfileDuration,
      h, ht]

/-- C19 at a constructed manager with the delay explicitly disabled:
CreateTimer(PROFILEDELAYTIMER, 100) makes IsProfilerDelayEnabled return true
and report 100. -/
theorem C19_create_timer_overwrites_witness :
    (0 : Nat) < 100 ∧
    (((HSAAPIInfoManager.ctor false 0 false 0 true).EnableProfileDelayStart false
      50).CreateTimer true ProfilerTimerType.PROFILEDELAYTIMER 100).IsProfilerDelayEnabled =
        (true, 100) :=
  ⟨by decide,
    ((C19_create_timer_overwrites
      ((HSAAPIInfoManager.ctor false 0 false 0 true).EnableProfileDelayStart false 50)
      100 (by decide)).1 rfl).1⟩

/-! ## Handler runs interleaved with flushes -/

end CodeXL
